import Mathlib

/-!
# EduSolo layered-soil stress and consolidation core: verification

Shallow embedding of the backend modules `tensoes_geoestaticas.py`,
`acrescimo_tensoes.py`, `recalque_adensamento.py` and `tempo_adensamento.py`
of the EduSolo application, together with proofs settling the specification
claims about them.

Float arithmetic is idealised as exact arithmetic: the geostatic profile
builder (field operations and comparisons only) is embedded over `ℚ`, and the
elasticity / consolidation formulas (which use `atan`, `sin`, `cos`, `log10`,
`sqrt` and real powers) over `ℝ`.  Python's `round(x, n)` is modelled as exact
decimal rounding and `np.isclose(a, b)` by its documented formula
`|a - b| <= atol + rtol * |b|` with the default tolerances.
-/

namespace EduSolo

/-- Python `round(x, n)` on exact rationals.  (CPython rounds ties to even on
binary floats; no concrete value used below sits on a tie, so the convention
is irrelevant here.) -/
def pyround (n : ℕ) (x : ℚ) : ℚ := (round (x * 10 ^ n) : ℤ) / 10 ^ n

/-- Model of `np.isclose(a, b)` with the default tolerances `rtol = 1e-5`,
`atol = 1e-8`. -/
def npIsClose (a b : ℚ) : Bool := |a - b| ≤ 1 / 100000000 + |b| / 100000

/-! ## Geostatic stresses (`tensoes_geoestaticas.py`), over `ℚ` -/

/-- Soil layer (`CamadaSolo` in `models.py`): thickness, optional natural and
saturated unit weights, at-rest lateral earth pressure coefficient `Ko`. -/
structure CamadaSolo where
  espessura : ℚ
  gama_nat : Option ℚ
  gama_sat : Option ℚ
  Ko : ℚ
deriving Repr, DecidableEq

/-- Stress point (`TensaoPonto` in `models.py`); the builder always populates
every field, so the `Optional` wrappers of the Pydantic model are dropped. -/
structure TensaoPonto where
  profundidade : ℚ
  tensao_total_vertical : ℚ
  pressao_neutra : ℚ
  tensao_efetiva_vertical : ℚ
  tensao_efetiva_horizontal : ℚ
deriving Repr, DecidableEq

/-- Input record (`TensoesGeostaticasInput` in `models.py`). -/
structure TensoesGeostaticasInput where
  camadas : List CamadaSolo
  profundidade_na : ℚ
  altura_capilar : ℚ
  peso_especifico_agua : ℚ
deriving Repr

/-- Pore pressure at the base of a layer (`tensoes_geoestaticas.py`,
lines 100-111): hydrostatic below the water table, capillary suction within
the fringe, zero above it. -/
def pressaoNeutraBase (na hcap gw z_base : ℚ) : ℚ :=
  let d := z_base - na
  if 0 ≤ d then d * gw
  else if |d| ≤ hcap then d * gw
  else 0

/-- Total-stress update for one layer (`tensoes_geoestaticas.py`,
lines 54-98): natural weight above the water table, saturated weight below,
and for a straddling layer the split at the water table together with the
water-table point (emitted unless an existing point is `np.isclose` to that
depth). -/
def passoCamada (na : ℚ) (c : CamadaSolo) (prof sigma : ℚ)
    (pts : List TensaoPonto) : Except String (ℚ × List TensaoPonto) :=
  let z_base := prof + c.espessura
  if z_base ≤ na then
    match c.gama_nat with
    | none => .error "gama_nat nao definido para camada acima do NA"
    | some g => .ok (sigma + g * c.espessura, pts)
  else if na ≤ prof then
    match c.gama_sat with
    | none => .error "gama_sat nao definido para camada abaixo do NA"
    | some g => .ok (sigma + g * c.espessura, pts)
  else
    match c.gama_nat, c.gama_sat with
    | none, _ => .error "gama_nat nao definido para camada atravessada pelo NA"
    | some _, none => .error "gama_sat nao definido para camada atravessada pelo NA"
    | some gnat, some gsat =>
      let t_int := sigma + gnat * (na - prof)
      let pts' :=
        if pts.any fun p => npIsClose p.profundidade na then pts
        else pts ++ [⟨na, pyround 4 t_int, pyround 4 0, pyround 4 t_int,
          pyround 4 (t_int * c.Ko)⟩]
      .ok (t_int + gsat * (z_base - na), pts')

/-- The layer loop of `calcular_tensoes_geostaticas` (lines 49-132):
accumulates total vertical stress via `passoCamada` and emits a point at each
layer base, with the base point's effective vertical stress floored to `0`
when it falls below `-1e-9` (lines 100-130). -/
def loopCamadas (na hcap gw : ℚ) : List CamadaSolo → ℚ → ℚ → List TensaoPonto →
    Except String (List TensaoPonto)
  | [], _, _, pts => .ok pts
  | c :: rest, prof, sigma, pts =>
    let z_base := prof + c.espessura
    match passoCamada na c prof sigma pts with
    | .error e => .error e
    | .ok (sigma', pts') =>
      let u := pressaoNeutraBase na hcap gw z_base
      let sef := sigma' - u
      let sefc := if sef < -(1 / 1000000000) then 0 else sef
      loopCamadas na hcap gw rest z_base sigma'
        (pts' ++ [⟨pyround 4 z_base, pyround 4 sigma', pyround 4 u,
          pyround 4 sefc, pyround 4 (sefc * c.Ko)⟩])

/-- Stable insertion by depth, modelling Python's stable ascending sort
(line 135). -/
def insereProf (p : TensaoPonto) : List TensaoPonto → List TensaoPonto
  | [] => [p]
  | q :: qs =>
    if p.profundidade ≤ q.profundidade then p :: q :: qs else q :: insereProf p qs

/-- Stable insertion sort by depth (line 135). -/
def ordenaProf : List TensaoPonto → List TensaoPonto
  | [] => []
  | p :: ps => insereProf p (ordenaProf ps)

/-- Deduplication by rounded depth keeping the first occurrence
(lines 138-143). -/
def removeDuplicados : List TensaoPonto → List ℚ → List TensaoPonto
  | [], _ => []
  | p :: ps, vistas =>
    if pyround 4 p.profundidade ∈ vistas then removeDuplicados ps vistas
    else p :: removeDuplicados ps (pyround 4 p.profundidade :: vistas)

/-- The surface point (`tensoes_geoestaticas.py`, lines 27-46): emitted
unrounded, with its pore pressure special-cased to
`-altura_capilar * gama_w` when the water table sits at (or above) the
surface and the capillary fringe is positive, and `0` otherwise; its
effective horizontal stress uses the first layer's `Ko`. -/
def pontoInicial (dados : TensoesGeostaticasInput) (c0 : CamadaSolo) :
    TensaoPonto :=
  let u0 : ℚ :=
    if dados.profundidade_na ≤ 0 ∧ 0 < dados.altura_capilar then
      -dados.altura_capilar * dados.peso_especifico_agua
    else 0
  ⟨0, 0, u0, 0 - u0, (0 - u0) * c0.Ko⟩

/-- Model of `calcular_tensoes_geostaticas` (`tensoes_geoestaticas.py`): the full
profile builder.  The surface point is emitted first, the loop adds
water-table and layer-base points, and the result is sorted by depth and
deduplicated by rounded depth (lines 134-145). -/
def calcular_tensoes_geostaticas (dados : TensoesGeostaticasInput) :
    Except String (List TensaoPonto) :=
  match dados.camadas with
  | [] => .error "A lista de camadas nao pode estar vazia."
  | c0 :: cs =>
    (loopCamadas dados.profundidade_na dados.altura_capilar
        dados.peso_especifico_agua (c0 :: cs) 0 0 [pontoInicial dados c0]).map
      fun pts => removeDuplicados (ordenaProf pts) []

/-- Modelled from the spec (§4.1): the claimed pore-pressure rule at depth
`d`: hydrostatic at and below the water table, suction within the capillary
fringe, zero above it. -/
def poroPressaoSpec (na hcap gw d : ℚ) : ℚ :=
  if na ≤ d then (d - na) * gw
  else if na - d ≤ hcap then -((na - d) * gw)
  else 0

/-- The emitted point's pore pressure agrees (after 4-decimal rounding) with
the spec's rule evaluated at the point's exact depth, except for the surface
point, which carries the builder's special-cased value. -/
def pressaoConformeSpec (na hcap gw : ℚ) (p : TensaoPonto) : Prop :=
  (∃ d : ℚ, (p.profundidade = d ∨ p.profundidade = pyround 4 d) ∧
    p.pressao_neutra = pyround 4 (poroPressaoSpec na hcap gw d)) ∨
  (p.profundidade = 0 ∧
    p.pressao_neutra = if na ≤ 0 ∧ 0 < hcap then -hcap * gw else 0)

/-- Depth spans of the layers, paired with each layer's `Ko`: entries are
`(top, bottom, Ko)`. -/
def spansFrom : List CamadaSolo → ℚ → List (ℚ × ℚ × ℚ)
  | [], _ => []
  | c :: rest, prof => (prof, prof + c.espessura, c.Ko) :: spansFrom rest (prof + c.espessura)

/-- Depth `d` lies in the span `s = (top, bottom, Ko)`, where an interface
depth belongs to the layer ending (not the one starting) there, and depth `0`
belongs to the first layer. -/
def dentroDaCamada (s : ℚ × ℚ × ℚ) (d : ℚ) : Prop :=
  (s.1 < d ∨ (s.1 = 0 ∧ d = 0)) ∧ d ≤ s.2.1

/-- The emitted point's effective horizontal stress is its (pre-rounding)
effective vertical stress times the `Ko` of the layer whose span contains the
point's exact depth. -/
def horizontalConformeKo (S : List (ℚ × ℚ × ℚ)) (p : TensaoPonto) : Prop :=
  ∃ s ∈ S, ∃ d sv : ℚ,
    (p.profundidade = d ∨ p.profundidade = pyround 4 d) ∧ dentroDaCamada s d ∧
    (p.tensao_efetiva_vertical = sv ∨ p.tensao_efetiva_vertical = pyround 4 sv) ∧
    (p.tensao_efetiva_horizontal = sv * s.2.2 ∨
      p.tensao_efetiva_horizontal = pyround 4 (sv * s.2.2))

/-- Both optional unit weights of a layer, when present, are nonnegative. -/
def pesosNaoNegativos (c : CamadaSolo) : Prop :=
  (∀ g, c.gama_nat = some g → 0 ≤ g) ∧ (∀ g, c.gama_sat = some g → 0 ≤ g)

/-! ## Stress increments (`acrescimo_tensoes.py`), over `ℝ` -/

noncomputable section

/-- Model of `EPSILON = 1e-9` shared by the Python modules. -/
def EPSILON : ℝ := 1 / 1000000000

/-- Python `round(x, n)` on reals (same remark on ties as `pyround`). -/
def pyroundR (n : ℕ) (x : ℝ) : ℝ := (round (x * 10 ^ n) : ℤ) / 10 ^ n

/-- Model of `np.isclose(a, b)` over `ℝ` with the default tolerances. -/
def npIsCloseR (a b : ℝ) : Prop := |a - b| ≤ 1 / 100000000 + |b| / 100000

instance (a b : ℝ) : Decidable (npIsCloseR a b) := by
  unfold npIsCloseR
  infer_instance

/-- Model of `PontoInteresse` of `models.py` (the boundary enforces `z > 0`). -/
structure PontoInteresse where
  x : ℝ
  y : ℝ
  z : ℝ

/-- Model of `CargaPontual` of `models.py`. -/
structure CargaPontual where
  x : ℝ
  y : ℝ
  P : ℝ

/-- Model of `CargaFaixa` of `models.py`. -/
structure CargaFaixa where
  largura : ℝ
  intensidade : ℝ
  centro_x : ℝ

/-- Model of `CargaCircular` of `models.py`. -/
structure CargaCircular where
  raio : ℝ
  intensidade : ℝ
  centro_x : ℝ
  centro_y : ℝ

/-- Model of `AcrescimoTensoesInput` of `models.py`. -/
structure AcrescimoTensoesInput where
  tipo_carga : String
  ponto_interesse : PontoInteresse
  carga_pontual : Option CargaPontual
  carga_faixa : Option CargaFaixa
  carga_circular : Option CargaCircular

/-- Model of `AcrescimoTensoesOutput` of `models.py`. -/
structure AcrescimoTensoesOutput where
  delta_sigma_v : Option ℝ
  metodo : Option String
  erro : Option String

/-- Model of `calcular_acrescimo_boussinesq_pontual` (lines 15-23); the `float('nan')`
returned for a degenerate denominator is modelled as `none`. -/
def calcular_acrescimo_boussinesq_pontual (carga : CargaPontual)
    (ponto : PontoInteresse) : Option ℝ :=
  let r_quadrado := (ponto.x - carga.x) ^ 2 + (ponto.y - carga.y) ^ 2
  let denominador_raiz := r_quadrado + ponto.z ^ 2
  if denominador_raiz ≤ EPSILON then none
  else some ((3 * carga.P * ponto.z ^ 3) /
    (2 * Real.pi * denominador_raiz ^ (2.5 : ℝ)))

/-- Model of `calcular_acrescimo_carothers_faixa` (lines 25-71).  Note that the source
reads `x = ponto.x` and never consults `carga.centro_x`. -/
def calcular_acrescimo_carothers_faixa (carga : CargaFaixa)
    (ponto : PontoInteresse) : ℝ :=
  let p := carga.intensidade
  let b := carga.largura
  let x := ponto.x
  let z := ponto.z
  if z ≤ EPSILON then (if |x| < b / 2 then p else 0)
  else
    let alpha1 := Real.arctan ((b / 2 - x) / z)
    let alpha2 := Real.arctan ((-(b / 2) - x) / z)
    let delta_alpha := alpha1 - alpha2
    let sum_alpha := alpha1 + alpha2
    (p / Real.pi) * (delta_alpha + Real.sin delta_alpha * Real.cos sum_alpha)

/-- Model of `calcular_acrescimo_love_circular_centro` (lines 74-103): the Love
closed form under the centre of the loaded circle. -/
def calcular_acrescimo_love_circular_centro (carga : CargaCircular)
    (ponto : PontoInteresse) : ℝ :=
  let p := carga.intensidade
  let R := carga.raio
  let z := ponto.z
  if z ≤ EPSILON then p
  else if R ≤ EPSILON then 0
  else
    let rz_ratio_sq := (R / z) ^ 2
    let termo_base := 1 / (1 + rz_ratio_sq)
    if termo_base < EPSILON then p * (1 - 0)
    else p * (1 - termo_base ^ (1.5 : ℝ))

/-- The embedded influence chart `abaco_data` (lines 124-131), keyed by `z/R`
with curves of `(r/R, sigma_z/p)` pairs. -/
def abacoData : List (ℝ × List (ℝ × ℝ)) :=
  [(0.5, [(0, 0.91), (0.5, 0.85), (0.75, 0.75), (1.0, 0.50), (1.25, 0.23), (1.5, 0.10)]),
   (1.0, [(0, 0.65), (0.5, 0.60), (0.75, 0.52), (1.0, 0.37), (1.25, 0.22), (1.5, 0.12)]),
   (1.5, [(0, 0.42), (0.5, 0.40), (0.75, 0.36), (1.0, 0.29), (1.25, 0.20), (1.5, 0.13)]),
   (2.0, [(0, 0.29), (0.5, 0.28), (0.75, 0.26), (1.0, 0.22), (1.25, 0.17), (1.5, 0.12)]),
   (3.0, [(0, 0.14), (0.5, 0.14), (0.75, 0.13), (1.0, 0.12), (1.25, 0.10), (1.5, 0.08)])]

/-- Model of `sorted(abaco_data.keys())` (line 134). -/
def zRKeys : List ℝ := [0.5, 1, 1.5, 2, 3]

/-- Model of `max` of a possibly empty list (Python `max(..., default=...)` support). -/
def listMax : List ℝ → Option ℝ
  | [] => none
  | x :: xs =>
    match listMax xs with
    | none => some x
    | some m => some (max x m)

/-- Model of `min` of a possibly empty list (Python `min(..., default=...)` support). -/
def listMin : List ℝ → Option ℝ
  | [] => none
  | x :: xs =>
    match listMin xs with
    | none => some x
    | some m => some (min x m)

/-- Model of `max([k for k in z_R_keys if k <= z_R], default=min(z_R_keys))`
(line 136). -/
def zRInf (q : ℝ) : ℝ :=
  (listMax (zRKeys.filter fun k => decide (k ≤ q))).getD ((listMin zRKeys).getD 0)

/-- Model of `min([k for k in z_R_keys if k >= z_R], default=max(z_R_keys))`
(line 137). -/
def zRSup (q : ℝ) : ℝ :=
  (listMin (zRKeys.filter fun k => decide (q ≤ k))).getD ((listMax zRKeys).getD 0)

/-- Dictionary access `abaco_data[k]` for a key drawn from `zRKeys`. -/
def curvaAbaco (k : ℝ) : List (ℝ × ℝ) :=
  ((abacoData.find? fun kv => decide (kv.1 = k)).map Prod.snd).getD []

/-- Model of `next((p[1] for p in curva_sup if np.isclose(p[0], r_R_val)), fallback)`
(line 154). -/
def proximaSigma (curva_sup : List (ℝ × ℝ)) (r_R_val fallback : ℝ) : ℝ :=
  ((curva_sup.find? fun pr => decide (npIsCloseR pr.1 r_R_val)).map Prod.snd).getD
    fallback

/-- The synthetic `(r/R, factor)` curve at query `q = z/R` (lines 139-156):
the tabulated curve when both bracketing keys agree, else the pointwise
convex combination of the two bracketing curves. -/
def curvaSintetica (q : ℝ) : List (ℝ × ℝ) :=
  let kinf := zRInf q
  let ksup := zRSup q
  if kinf = ksup then curvaAbaco kinf
  else
    let curva_inf := curvaAbaco kinf
    let curva_sup := curvaAbaco ksup
    let peso_sup := (q - kinf) / (ksup - kinf)
    let peso_inf := 1 - peso_sup
    curva_inf.map fun pr =>
      (pr.1, peso_inf * pr.2 + peso_sup * proximaSigma curva_sup pr.1 pr.2)

/-- Model of `np.interp` restricted to a query strictly inside the grid (the
out-of-range cases are handled before the call, lines 162-168). -/
def interpLinear (x : ℝ) : List (ℝ × ℝ) → ℝ
  | [] => 0
  | [(_, y1)] => y1
  | (x1, y1) :: (x2, y2) :: rest =>
    if x ≤ x2 then y1 + (y2 - y1) * (x - x1) / (x2 - x1)
    else interpLinear x ((x2, y2) :: rest)

/-- Steps 1-4 of the chart procedure (lines 134-170): bracketing along `z/R`,
synthetic curve, interpolation/clamping along `r/R`, and the final
nonnegativity clamp. -/
def fatorAbaco (q rr : ℝ) : ℝ :=
  let curva := curvaSintetica q
  let r_R_vals := curva.map Prod.fst
  let sigma_p_vals := curva.map Prod.snd
  let fator :=
    if (r_R_vals.getLast?).getD 0 ≤ rr then (sigma_p_vals.getLast?).getD 0
    else if rr ≤ (r_R_vals.head?).getD 0 then (sigma_p_vals.head?).getD 0
    else interpLinear rr curva
  if fator < 0 then 0 else fator

/-- Model of `calcular_acrescimo_love_circular_abaco` (lines 106-173).  The radial
offset is measured from the origin (`ponto.x`, `ponto.y` only; the load's
`centro_x`/`centro_y` are not consulted by the source). -/
def calcular_acrescimo_love_circular_abaco (carga : CargaCircular)
    (ponto : PontoInteresse) : ℝ :=
  let p := carga.intensidade
  let R := carga.raio
  let z := ponto.z
  let r := Real.sqrt (ponto.x ^ 2 + ponto.y ^ 2)
  if z ≤ EPSILON then (if r < R then p else 0)
  else if R ≤ EPSILON then 0
  else p * fatorAbaco (z / R) (r / R)

/-- Model of `calcular_acrescimo_tensoes` (lines 177-237): dispatch over the load tag.
The source first lower-cases the tag (`dados.tipo_carga.lower()`); the model
compares against the lowercase tags directly.  Circular loads always go
through the chart approximation (line 205); the closed-form call is
commented out in the source.  A `NaN` result (possible only for the point
load) yields the error output. -/
def calcular_acrescimo_tensoes (dados : AcrescimoTensoesInput) :
    AcrescimoTensoesOutput :=
  if dados.ponto_interesse.z ≤ EPSILON then
    ⟨none, none, some "Profundidade (z) do ponto de interesse deve ser maior que zero."⟩
  else if dados.tipo_carga = "pontual" then
    match dados.carga_pontual with
    | none => ⟨none, none, some "Dados de carga_pontual necessarios."⟩
    | some carga =>
      match calcular_acrescimo_boussinesq_pontual carga dados.ponto_interesse with
      | none => ⟨none, some "Boussinesq (Pontual)",
          some "Calculo resultou em valor indefinido (NaN)."⟩
      | some v => ⟨some (pyroundR 4 v), some "Boussinesq (Pontual)", none⟩
  else if dados.tipo_carga = "faixa" then
    match dados.carga_faixa with
    | none => ⟨none, none, some "Dados de carga_faixa necessarios."⟩
    | some carga =>
      ⟨some (pyroundR 4 (calcular_acrescimo_carothers_faixa carga dados.ponto_interesse)),
        some "Carothers (Faixa)", none⟩
  else if dados.tipo_carga = "circular" then
    match dados.carga_circular with
    | none => ⟨none, none, some "Dados de carga_circular necessarios."⟩
    | some carga =>
      ⟨some (pyroundR 4 (calcular_acrescimo_love_circular_abaco carga dados.ponto_interesse)),
        some "Love (Circular - Ábaco)", none⟩
  else ⟨none, none, some "Tipo de carga nao suportado."⟩

/-- Modelled from the spec (§4.2 / claim C2): the Carothers strip formula
with the horizontal offset measured from the strip's `centerX`. -/
def carothersSpecFormula (largura intensidade centro_x x z : ℝ) : ℝ :=
  let a1 := Real.arctan ((largura / 2 - (x - centro_x)) / z)
  let a2 := Real.arctan ((-(largura / 2) - (x - centro_x)) / z)
  (intensidade / Real.pi) * ((a1 - a2) + Real.sin (a1 - a2) * Real.cos (a1 + a2))

/-- Modelled from the spec (§4.2 step 1): `k` is the nearest tabulated key
`≤ q`, or the minimum tabulated key when no key is `≤ q`. -/
def NearestKeyLE (keys : List ℝ) (q k : ℝ) : Prop :=
  (k ∈ keys ∧ k ≤ q ∧ ∀ j ∈ keys, j ≤ q → j ≤ k) ∨
  ((∀ j ∈ keys, ¬ j ≤ q) ∧ listMin keys = some k)

/-- Modelled from the spec (§4.2 step 1): `k` is the nearest tabulated key
`≥ q`, or the maximum tabulated key when no key is `≥ q`. -/
def NearestKeyGE (keys : List ℝ) (q k : ℝ) : Prop :=
  (k ∈ keys ∧ q ≤ k ∧ ∀ j ∈ keys, q ≤ j → k ≤ j) ∨
  ((∀ j ∈ keys, ¬ q ≤ j) ∧ listMax keys = some k)

/-! ## Settlement (`recalque_adensamento.py`), over `ℝ` -/

/-- Model of `RecalqueAdensamentoInput` of `models.py`. -/
structure RecalqueAdensamentoInput where
  espessura_camada : ℝ
  indice_vazios_inicial : ℝ
  Cc : ℝ
  Cr : ℝ
  tensao_efetiva_inicial : ℝ
  tensao_pre_adensamento : ℝ
  acrescimo_tensao : ℝ

/-- Model of `RecalqueAdensamentoOutput` of `models.py` (success fields only; the
error case is the `Except.error` side). -/
structure RecalqueAdensamentoOutput where
  recalque_total_primario : ℝ
  deformacao_volumetrica : ℝ
  tensao_efetiva_final : ℝ
  estado_adensamento : String
  RPA : ℝ

/-- Recompression-branch volumetric strain (line 62 of
`recalque_adensamento.py`). -/
def deformacaoRecompressao (Cr e0 sv0 svf : ℝ) : ℝ :=
  (Cr / (1 + e0)) * Real.logb 10 (svf / sv0)

/-- Virgin-compression (normally consolidated) volumetric strain
(lines 54 and 76). -/
def deformacaoVirgem (Cc e0 sv0 svf : ℝ) : ℝ :=
  (Cc / (1 + e0)) * Real.logb 10 (svf / sv0)

/-- Crossing-into-virgin-compression volumetric strain (lines 68-69). -/
def deformacaoCruzamento (Cr Cc e0 sv0 svm svf : ℝ) : ℝ :=
  (Cr / (1 + e0)) * Real.logb 10 (svm / sv0) +
    (Cc / (1 + e0)) * Real.logb 10 (svf / svm)

/-- Builds the rounded success output of `calcular_recalque_adensamento`
(lines 81-87). -/
def montaRecalque (epsilon_v H0 svf RPA : ℝ) (estado : String) :
    RecalqueAdensamentoOutput :=
  ⟨pyroundR 4 (epsilon_v * H0), pyroundR 5 epsilon_v, pyroundR 2 svf,
    estado, pyroundR 2 RPA⟩

/-- Model of `calcular_recalque_adensamento` (`recalque_adensamento.py`): validation,
consolidation-state classification with the `±0.1` tolerance on `RPA`, and
the branch strains (named `deformacao*` above, inline in the source). -/
def calcular_recalque_adensamento (dados : RecalqueAdensamentoInput) :
    Except String RecalqueAdensamentoOutput :=
  let H0 := dados.espessura_camada
  let e0 := dados.indice_vazios_inicial
  let Cc := dados.Cc
  let Cr := dados.Cr
  let sv0 := dados.tensao_efetiva_inicial
  let svm := dados.tensao_pre_adensamento
  let ds := dados.acrescimo_tensao
  if H0 ≤ 0 ∨ e0 ≤ 0 ∨ Cc ≤ 0 ∨ Cr ≤ 0 ∨ sv0 ≤ 0 ∨ svm ≤ 0 ∨ ds < 0 then
    .error "Valores de entrada invalidos."
  else if 1 + e0 ≤ EPSILON then
    .error "Indice de vazios inicial (e0) invalido."
  else
    let svf := sv0 + ds
    let RPA := svm / sv0
    if |RPA - 1| < 0.1 then
      if sv0 ≤ EPSILON then
        .error "Tensao efetiva inicial nao pode ser zero para solo NA."
      else
        .ok (montaRecalque (deformacaoVirgem Cc e0 sv0 svf) H0 svf RPA
          "Normalmente Adensado (RPA ≈ 1)")
    else if 1 < RPA then
      if svf ≤ svm then
        if sv0 ≤ EPSILON then
          .error "Tensao efetiva inicial nao pode ser zero."
        else
          .ok (montaRecalque (deformacaoRecompressao Cr e0 sv0 svf) H0 svf RPA
            "Pré-Adensado (RPA > 1)")
      else
        if sv0 ≤ EPSILON ∨ svm ≤ EPSILON then
          .error "Tensoes inicial e de pre-adensamento devem ser maiores que zero."
        else
          .ok (montaRecalque (deformacaoCruzamento Cr Cc e0 sv0 svm svf) H0 svf RPA
            "Pré-Adensado (RPA > 1)")
    else
      if sv0 ≤ EPSILON then
        .error "Tensao efetiva inicial nao pode ser zero."
      else
        .ok (montaRecalque (deformacaoVirgem Cc e0 sv0 svf) H0 svf RPA
          "Sub-Adensado (RPA < 1) - Cálculo como Normalmente Adensado")

/-! ## Consolidation time (`tempo_adensamento.py`), over `ℝ` -/

/-- A time factor value: either a finite real or the IEEE `float('inf')`
sentinel returned for `Uz = 100 %`. -/
inductive TvVal where
  | infinite
  | finite (t : ℝ)

/-- Model of `TempoAdensamentoInput` of `models.py`. -/
structure TempoAdensamentoInput where
  recalque_total_primario : ℝ
  coeficiente_adensamento : ℝ
  altura_drenagem : ℝ
  tempo : Option ℝ
  grau_adensamento_medio : Option ℝ

/-- Model of `TempoAdensamentoOutput` of `models.py` (success fields; the possibly
infinite time and time factor are `TvVal`s). -/
structure TempoAdensamentoOutput where
  tempo_calculado : TvVal
  recalque_no_tempo : ℝ
  grau_adensamento_medio_calculado : ℝ
  fator_tempo : TvVal

/-- Model of `calcular_Tv_de_Uz` (lines 9-21 of `tempo_adensamento.py`): `none` for an
out-of-range degree, `infinite` when `np.isclose(Uz, 100)`, else the
two-regime closed form. -/
def calcular_Tv_de_Uz (Uz_percent : ℝ) : Option TvVal :=
  if Uz_percent < 0 ∨ 100 < Uz_percent then none
  else if npIsCloseR Uz_percent 100 then some .infinite
  else
    let Uz := Uz_percent / 100
    if Uz ≤ 0.60 then some (.finite ((Real.pi / 4) * Uz ^ 2))
    else some (.finite (-0.933 * Real.logb 10 (1 - Uz) - 0.085))

/-- Model of `np.clip(x, 0, 1)`. -/
def npClip01 (x : ℝ) : ℝ := min 1 (max 0 x)

/-- Model of `calcular_Uz_de_Tv` (lines 23-48): `none` for a negative time factor,
else the two-regime inverse with the practical `exponent < -30` cutoff,
clipped into `[0, 1]` and scaled to percent. -/
def calcular_Uz_de_Tv (Tv : ℝ) : Option ℝ :=
  if Tv < 0 then none
  else if Tv = 0 then some 0
  else if Tv ≤ 0.283 then some (npClip01 (Real.sqrt (4 * Tv / Real.pi)) * 100)
  else
    let exponent := -(Tv + 0.085) / 0.933
    let Uz : ℝ := if exponent < -30 then 1 else 1 - (10 : ℝ) ^ exponent
    some (npClip01 Uz * 100)

/-- Model of `calcular_Uz_de_Tv` extended to a possibly infinite time factor, with the
IEEE semantics of the Python float path on `+inf`: `inf < 0`, `inf == 0` and
`inf <= 0.283` are all false, the exponent `-(inf + 0.085)/0.933 = -inf` is
`< -30`, so `Uz = 1.0` and the function returns `100.0`. -/
def calcular_Uz_de_Tv_val : TvVal → Option ℝ
  | .infinite => some 100
  | .finite t => calcular_Uz_de_Tv t

/-- Model of `calcular_tempo_adensamento` (lines 50-119): validation (positivity,
exactly one of elapsed time and target degree), then either direction of the
conversion, with the source's roundings on the success outputs. -/
def calcular_tempo_adensamento (dados : TempoAdensamentoInput) :
    Except String TempoAdensamentoOutput :=
  let delta_H_total := dados.recalque_total_primario
  let Cv := dados.coeficiente_adensamento
  let Hd := dados.altura_drenagem
  if delta_H_total ≤ 0 ∨ Cv ≤ 0 ∨ Hd ≤ 0 then
    .error "Recalque total, Cv e Hd devem ser positivos."
  else if dados.tempo.isNone && dados.grau_adensamento_medio.isNone then
    .error "E necessario fornecer tempo ou grau_adensamento_medio."
  else if dados.tempo.isSome && dados.grau_adensamento_medio.isSome then
    .error "Forneca apenas tempo OU grau_adensamento_medio, nao ambos."
  else
    match dados.grau_adensamento_medio with
    | some Uz_desejado =>
      match calcular_Tv_de_Uz Uz_desejado with
      | none => .error "Grau de adensamento medio invalido (deve ser entre 0 e 100)."
      | some .infinite =>
        .ok ⟨.infinite, pyroundR 4 delta_H_total, pyroundR 2 100, .infinite⟩
      | some (.finite Tv) =>
        .ok ⟨.finite (pyroundR 3 ((Tv * Hd ^ 2) / Cv)),
          pyroundR 4 ((Uz_desejado / 100) * delta_H_total),
          pyroundR 2 Uz_desejado, .finite (pyroundR 4 Tv)⟩
    | none =>
      match dados.tempo with
      | none => .error "E necessario fornecer tempo ou grau_adensamento_medio."
      | some tempo =>
        if tempo < 0 then .error "Tempo deve ser nao-negativo."
        else if tempo = 0 then
          .ok ⟨.finite (pyroundR 3 tempo), pyroundR 4 0, pyroundR 2 0,
            .finite (pyroundR 4 0)⟩
        else
          let Tv := (Cv * tempo) / Hd ^ 2
          match calcular_Uz_de_Tv Tv with
          | none => .error "Erro ao calcular Uz a partir de Tv."
          | some Uz =>
            .ok ⟨.finite (pyroundR 3 tempo),
              pyroundR 4 ((Uz / 100) * delta_H_total),
              pyroundR 2 Uz, .finite (pyroundR 4 Tv)⟩

end

/-! ### Helper lemmas -/

theorem pyround_zero (n : ℕ) : pyround n 0 = 0 := by
  simp [pyround]

theorem pyround_nonneg {n : ℕ} {x : ℚ} (hx : 0 ≤ x) : 0 ≤ pyround n x := by
  unfold pyround
  refine div_nonneg ?_ (by positivity)
  have h : (0 : ℤ) ≤ round (x * 10 ^ n) := by
    rw [round_eq]
    exact Int.le_floor.mpr (by push_cast; positivity)
  exact_mod_cast h

theorem pyround4_nonneg_of_ge {x : ℚ} (hx : -(1 / 1000000000) ≤ x) :
    0 ≤ pyround 4 x := by
  unfold pyround
  refine div_nonneg ?_ (by positivity)
  have h : (0 : ℤ) ≤ round (x * 10 ^ 4) := by
    rw [round_eq]
    refine Int.le_floor.mpr ?_
    push_cast
    nlinarith
  exact_mod_cast h

theorem pressaoNeutraBase_eq_spec (na hcap gw z : ℚ) :
    pressaoNeutraBase na hcap gw z = poroPressaoSpec na hcap gw z := by
  simp only [pressaoNeutraBase, poroPressaoSpec]
  by_cases h1 : 0 ≤ z - na
  · have h1' : na ≤ z := by linarith
    simp only [if_pos h1, if_pos h1']
  · have h1' : ¬ na ≤ z := fun hc => h1 (by linarith)
    have habs : |z - na| = na - z := by
      rw [abs_of_neg (by linarith : z - na < 0)]; ring
    by_cases h2 : na - z ≤ hcap
    · have h2' : |z - na| ≤ hcap := by rw [habs]; exact h2
      simp only [if_neg h1, if_neg h1', if_pos h2, if_pos h2']
      ring
    · have h2' : ¬ |z - na| ≤ hcap := by rw [habs]; exact h2
      simp only [if_neg h1, if_neg h1', if_neg h2, if_neg h2']

theorem mem_insereProf :
    ∀ (l : List TensaoPonto) (p x : TensaoPonto), x ∈ insereProf p l → x = p ∨ x ∈ l := by
  intro l
  induction l with
  | nil =>
    intro p x h
    simp only [insereProf, List.mem_singleton] at h
    exact Or.inl h
  | cons q qs ih =>
    intro p x h
    rw [insereProf] at h
    split at h
    · rcases List.mem_cons.mp h with h1 | h2
      · exact Or.inl h1
      · exact Or.inr h2
    · rcases List.mem_cons.mp h with h1 | h2
      · exact Or.inr (List.mem_cons.mpr (Or.inl h1))
      · rcases ih p x h2 with h3 | h4
        · exact Or.inl h3
        · exact Or.inr (List.mem_cons.mpr (Or.inr h4))

theorem mem_ordenaProf :
    ∀ (l : List TensaoPonto) (x : TensaoPonto), x ∈ ordenaProf l → x ∈ l := by
  intro l
  induction l with
  | nil => intro x h; simp [ordenaProf] at h
  | cons p ps ih =>
    intro x h
    rw [ordenaProf] at h
    rcases mem_insereProf _ _ _ h with h1 | h2
    · exact List.mem_cons.mpr (Or.inl h1)
    · exact List.mem_cons.mpr (Or.inr (ih x h2))

theorem mem_removeDuplicados :
    ∀ (l : List TensaoPonto) (vs : List ℚ) (x : TensaoPonto),
      x ∈ removeDuplicados l vs → x ∈ l := by
  intro l
  induction l with
  | nil => intro vs x h; simp [removeDuplicados] at h
  | cons p ps ih =>
    intro vs x h
    rw [removeDuplicados] at h
    split at h
    · exact List.mem_cons.mpr (Or.inr (ih _ x h))
    · rcases List.mem_cons.mp h with h1 | h2
      · exact List.mem_cons.mpr (Or.inl h1)
      · exact List.mem_cons.mpr (Or.inr (ih _ x h2))

/-- Case analysis on a successful `passoCamada`: the three water-table
positions of the layer, the resulting total stress, and the (possibly
unchanged) point list. -/
theorem passoCamada_ok {na : ℚ} {c : CamadaSolo} {prof sigma : ℚ}
    {pts : List TensaoPonto} {sigma' : ℚ} {pts' : List TensaoPonto}
    (h : passoCamada na c prof sigma pts = .ok (sigma', pts')) :
    (prof + c.espessura ≤ na ∧ (∃ g, c.gama_nat = some g ∧
        sigma' = sigma + g * c.espessura) ∧ pts' = pts) ∨
    (¬ prof + c.espessura ≤ na ∧ na ≤ prof ∧ (∃ g, c.gama_sat = some g ∧
        sigma' = sigma + g * c.espessura) ∧ pts' = pts) ∨
    (prof < na ∧ na < prof + c.espessura ∧ ∃ gnat gsat,
        c.gama_nat = some gnat ∧ c.gama_sat = some gsat ∧
        sigma' = (sigma + gnat * (na - prof)) + gsat * (prof + c.espessura - na) ∧
        (pts' = pts ∨ pts' = pts ++ [⟨na, pyround 4 (sigma + gnat * (na - prof)),
          pyround 4 0, pyround 4 (sigma + gnat * (na - prof)),
          pyround 4 ((sigma + gnat * (na - prof)) * c.Ko)⟩])) := by
  simp only [passoCamada] at h
  by_cases h1 : prof + c.espessura ≤ na
  · rw [if_pos h1] at h
    cases hg : c.gama_nat with
    | none => rw [hg] at h; exact absurd h (by simp)
    | some g =>
      rw [hg] at h
      simp only [Except.ok.injEq, Prod.mk.injEq] at h
      exact Or.inl ⟨h1, ⟨g, rfl, h.1.symm⟩, h.2.symm⟩
  · rw [if_neg h1] at h
    by_cases h2 : na ≤ prof
    · rw [if_pos h2] at h
      cases hg : c.gama_sat with
      | none => rw [hg] at h; exact absurd h (by simp)
      | some g =>
        rw [hg] at h
        simp only [Except.ok.injEq, Prod.mk.injEq] at h
        exact Or.inr (Or.inl ⟨h1, h2, ⟨g, rfl, h.1.symm⟩, h.2.symm⟩)
    · rw [if_neg h2] at h
      cases hgn : c.gama_nat with
      | none => rw [hgn] at h; exact absurd h (by simp)
      | some gnat =>
        cases hgs : c.gama_sat with
        | none => rw [hgn, hgs] at h; exact absurd h (by simp)
        | some gsat =>
          rw [hgn, hgs] at h
          simp only [Except.ok.injEq, Prod.mk.injEq] at h
          obtain ⟨hs, hp⟩ := h
          refine Or.inr (Or.inr ⟨lt_of_not_le h2, lt_of_not_le h1, gnat, gsat,
            rfl, rfl, hs.symm, ?_⟩)
          by_cases hany : (pts.any fun p => npIsClose p.profundidade na) = true
          · rw [if_pos hany] at hp
            exact Or.inl hp.symm
          · rw [if_neg hany] at hp
            exact Or.inr hp.symm

/-- Loop invariant for C3: every accumulated point carries the spec's pore
pressure (modulo the surface special case), and the loop preserves this. -/
theorem loopCamadas_pressao (na hcap gw : ℚ) :
    ∀ (rest : List CamadaSolo) (prof sigma : ℚ) (pts res : List TensaoPonto),
      loopCamadas na hcap gw rest prof sigma pts = .ok res →
      (∀ p ∈ pts, pressaoConformeSpec na hcap gw p) →
      ∀ p ∈ res, pressaoConformeSpec na hcap gw p := by
  intro rest
  induction rest with
  | nil =>
    intro prof sigma pts res h hacc
    rw [loopCamadas] at h
    cases h
    exact hacc
  | cons c cs ih =>
    intro prof sigma pts res h hacc
    rw [loopCamadas] at h
    cases hp : passoCamada na c prof sigma pts with
    | error e => rw [hp] at h; exact absurd h (by simp)
    | ok sp =>
      obtain ⟨sigma', pts'⟩ := sp
      rw [hp] at h
      simp only [] at h
      refine ih _ _ _ _ h ?_
      intro p hpmem
      rcases List.mem_append.mp hpmem with hmem | hmem
      · rcases passoCamada_ok hp with ⟨_, _, hpts⟩ | ⟨_, _, _, hpts⟩ |
          ⟨_, _, gnat, gsat, _, _, _, hpts | hpts⟩
        · exact hacc p (hpts ▸ hmem)
        · exact hacc p (hpts ▸ hmem)
        · exact hacc p (hpts ▸ hmem)
        · rw [hpts] at hmem
          rcases List.mem_append.mp hmem with hmem' | hmem'
          · exact hacc p hmem'
          · left
            refine ⟨na, Or.inl (by simp_all), ?_⟩
            have hspec : poroPressaoSpec na hcap gw na = 0 := by
              simp [poroPressaoSpec]
            rw [hspec]
            simp_all
      · left
        refine ⟨prof + c.espessura, Or.inr (by simp_all), ?_⟩
        rw [← pressaoNeutraBase_eq_spec]
        simp_all

/-- Loop invariant for C4: every accumulated point's effective horizontal
stress is its pre-rounding effective vertical stress times the `Ko` of a
span in `S`, and the loop preserves this. -/
theorem loopCamadas_Ko (na hcap gw : ℚ) (S : List (ℚ × ℚ × ℚ)) :
    ∀ (rest : List CamadaSolo) (prof sigma : ℚ) (pts res : List TensaoPonto),
      (∀ s ∈ spansFrom rest prof, s ∈ S) →
      (∀ c ∈ rest, 0 < c.espessura) →
      loopCamadas na hcap gw rest prof sigma pts = .ok res →
      (∀ p ∈ pts, horizontalConformeKo S p) →
      ∀ p ∈ res, horizontalConformeKo S p := by
  intro rest
  induction rest with
  | nil =>
    intro prof sigma pts res _ _ h hacc
    rw [loopCamadas] at h
    cases h
    exact hacc
  | cons c cs ih =>
    intro prof sigma pts res hS hesp h hacc
    have hSc : (prof, prof + c.espessura, c.Ko) ∈ S := by
      apply hS
      rw [spansFrom]
      exact List.mem_cons.mpr (Or.inl rfl)
    rw [loopCamadas] at h
    cases hp : passoCamada na c prof sigma pts with
    | error e => rw [hp] at h; exact absurd h (by simp)
    | ok sp =>
      obtain ⟨sigma', pts'⟩ := sp
      rw [hp] at h
      simp only [] at h
      have hS' : ∀ s ∈ spansFrom cs (prof + c.espessura), s ∈ S := by
        intro s hs
        refine hS s ?_
        rw [spansFrom.eq_def]
        exact List.mem_cons.mpr (Or.inr hs)
      refine ih _ _ _ _ hS' (fun c' hc' => hesp c' (by simp [hc'])) h ?_
      intro p hpmem
      rcases List.mem_append.mp hpmem with hmem | hmem
      · rcases passoCamada_ok hp with ⟨_, _, hpts⟩ | ⟨_, _, _, hpts⟩ |
          ⟨hna1, hna2, gnat, gsat, _, _, _, hpts | hpts⟩
        · exact hacc p (hpts ▸ hmem)
        · exact hacc p (hpts ▸ hmem)
        · exact hacc p (hpts ▸ hmem)
        · rw [hpts] at hmem
          rcases List.mem_append.mp hmem with hmem' | hmem'
          · exact hacc p hmem'
          · refine ⟨(prof, prof + c.espessura, c.Ko), hSc,
              na, sigma + gnat * (na - prof), ?_⟩
            have hpe : p = ⟨na, pyround 4 (sigma + gnat * (na - prof)), pyround 4 0,
                pyround 4 (sigma + gnat * (na - prof)),
                pyround 4 ((sigma + gnat * (na - prof)) * c.Ko)⟩ := by
              simpa using hmem'
            refine ⟨Or.inl (by rw [hpe]), ⟨Or.inl hna1, le_of_lt hna2⟩,
              Or.inr (by rw [hpe]), Or.inr (by rw [hpe])⟩
      · have hpe : p = ⟨pyround 4 (prof + c.espessura), pyround 4 sigma',
            pyround 4 (pressaoNeutraBase na hcap gw (prof + c.espessura)),
            pyround 4 (if sigma' - pressaoNeutraBase na hcap gw (prof + c.espessura) <
                -(1 / 1000000000) then 0
              else sigma' - pressaoNeutraBase na hcap gw (prof + c.espessura)),
            pyround 4 ((if sigma' - pressaoNeutraBase na hcap gw (prof + c.espessura) <
                -(1 / 1000000000) then 0
              else sigma' - pressaoNeutraBase na hcap gw (prof + c.espessura)) * c.Ko)⟩ := by
          simpa using hmem
        refine ⟨(prof, prof + c.espessura, c.Ko), hSc, prof + c.espessura,
          (if sigma' - pressaoNeutraBase na hcap gw (prof + c.espessura) <
              -(1 / 1000000000) then 0
            else sigma' - pressaoNeutraBase na hcap gw (prof + c.espessura)), ?_⟩
        have hc : 0 < c.espessura := hesp c (by simp)
        refine ⟨Or.inr (by rw [hpe]), ⟨Or.inl (by linarith), le_refl _⟩,
          Or.inr (by rw [hpe]), Or.inr (by rw [hpe])⟩

/-- Loop invariant for C7: with a positive water unit weight, positive layer
thicknesses and nonnegative unit weights, the accumulated total stress stays
nonnegative and every emitted point's effective vertical stress is
nonnegative. -/
theorem loopCamadas_efetiva_nonneg (na hcap gw : ℚ) :
    ∀ (rest : List CamadaSolo) (prof sigma : ℚ) (pts res : List TensaoPonto),
      (∀ c ∈ rest, 0 < c.espessura) →
      (∀ c ∈ rest, pesosNaoNegativos c) →
      0 ≤ sigma →
      loopCamadas na hcap gw rest prof sigma pts = .ok res →
      (∀ p ∈ pts, 0 ≤ p.tensao_efetiva_vertical) →
      ∀ p ∈ res, 0 ≤ p.tensao_efetiva_vertical := by
  intro rest
  induction rest with
  | nil =>
    intro prof sigma pts res _ _ _ h hacc
    rw [loopCamadas] at h
    cases h
    exact hacc
  | cons c cs ih =>
    intro prof sigma pts res hesp hpesos hsigma h hacc
    rw [loopCamadas] at h
    cases hp : passoCamada na c prof sigma pts with
    | error e => rw [hp] at h; exact absurd h (by simp)
    | ok sp =>
      obtain ⟨sigma', pts'⟩ := sp
      rw [hp] at h
      simp only [] at h
      have hc : 0 < c.espessura := hesp c (by simp)
      have hcp : pesosNaoNegativos c := hpesos c (by simp)
      have hsigma' : 0 ≤ sigma' := by
        rcases passoCamada_ok hp with ⟨_, ⟨g, hg, hs⟩, _⟩ | ⟨_, _, ⟨g, hg, hs⟩, _⟩ |
            ⟨hna1, hna2, gnat, gsat, hgn, hgs, hs, _⟩
        · have := hcp.1 g hg
          rw [hs]; nlinarith
        · have := hcp.2 g hg
          rw [hs]; nlinarith
        · have h1 := hcp.1 gnat hgn
          have h2 := hcp.2 gsat hgs
          rw [hs]; nlinarith
      refine ih _ _ _ _ (fun c' hc' => hesp c' (by simp [hc']))
        (fun c' hc' => hpesos c' (by simp [hc'])) hsigma' h ?_
      intro p hpmem
      rcases List.mem_append.mp hpmem with hmem | hmem
      · rcases passoCamada_ok hp with ⟨_, _, hpts⟩ | ⟨_, _, _, hpts⟩ |
          ⟨hna1, hna2, gnat, gsat, hgn, hgs, _, hpts | hpts⟩
        · exact hacc p (hpts ▸ hmem)
        · exact hacc p (hpts ▸ hmem)
        · exact hacc p (hpts ▸ hmem)
        · rw [hpts] at hmem
          rcases List.mem_append.mp hmem with hmem' | hmem'
          · exact hacc p hmem'
          · have hpe : p = ⟨na, pyround 4 (sigma + gnat * (na - prof)), pyround 4 0,
                pyround 4 (sigma + gnat * (na - prof)),
                pyround 4 ((sigma + gnat * (na - prof)) * c.Ko)⟩ := by
              simpa using hmem'
            rw [hpe]
            have h1 := hpesos c (by simp)
            have hg := h1.1 gnat hgn
            exact pyround_nonneg (by nlinarith)
      · have hpe : p = ⟨pyround 4 (prof + c.espessura), pyround 4 sigma',
            pyround 4 (pressaoNeutraBase na hcap gw (prof + c.espessura)),
            pyround 4 (if sigma' - pressaoNeutraBase na hcap gw (prof + c.espessura) <
                -(1 / 1000000000) then 0
              else sigma' - pressaoNeutraBase na hcap gw (prof + c.espessura)),
            pyround 4 ((if sigma' - pressaoNeutraBase na hcap gw (prof + c.espessura) <
                -(1 / 1000000000) then 0
              else sigma' - pressaoNeutraBase na hcap gw (prof + c.espessura)) * c.Ko)⟩ := by
          simpa using hmem
        rw [hpe]
        by_cases hneg : sigma' - pressaoNeutraBase na hcap gw (prof + c.espessura) <
            -(1 / 1000000000)
        · simp only [if_pos hneg]
          exact pyround_nonneg le_rfl
        · simp only [if_neg hneg]
          exact pyround4_nonneg_of_ge (by linarith [not_lt.mp hneg])

/-- A successful profile build decomposes into a nonempty layer list, a
successful loop run started from the surface point, and the final
sort-plus-deduplication. -/
theorem calcular_tensoes_ok {dados : TensoesGeostaticasInput}
    {res : List TensaoPonto}
    (h : calcular_tensoes_geostaticas dados = .ok res) :
    ∃ c0 cs pts, dados.camadas = c0 :: cs ∧
      loopCamadas dados.profundidade_na dados.altura_capilar
        dados.peso_especifico_agua (c0 :: cs) 0 0 [pontoInicial dados c0] = .ok pts ∧
      res = removeDuplicados (ordenaProf pts) [] := by
  unfold calcular_tensoes_geostaticas at h
  cases hc : dados.camadas with
  | nil => rw [hc] at h; exact absurd h (by simp)
  | cons c0 cs =>
    rw [hc] at h
    simp only [] at h
    cases hL : loopCamadas dados.profundidade_na dados.altura_capilar
        dados.peso_especifico_agua (c0 :: cs) 0 0 [pontoInicial dados c0] with
    | error e => rw [hL] at h; exact absurd h (by simp [Except.map])
    | ok pts =>
      rw [hL] at h
      simp only [Except.map, Except.ok.injEq] at h
      exact ⟨c0, cs, pts, rfl, hL, h.symm⟩

/-- Claim C3, as stated, is false on the code: with the water table at the
surface (`profundidade_na = 0`) and a positive capillary fringe, the
returned surface point carries pore pressure `-altura_capilar * gama_w =
-10`, while the claimed rule (`d ≥ waterTableDepth` branch) gives `0` at
depth `0`. -/
theorem claim_C3_counterexample :
    calcular_tensoes_geostaticas ⟨[⟨1, none, some 20, 1/2⟩], 0, 1, 10⟩ =
      .ok [⟨0, 0, -10, 10, 5⟩, ⟨1, 20, 10, 10, 5⟩] ∧
    poroPressaoSpec 0 1 10 0 = 0 ∧ ((-10 : ℚ) ≠ 0) :=
  ⟨by norm_num [calcular_tensoes_geostaticas, pontoInicial, loopCamadas, passoCamada,
      pressaoNeutraBase, pyround, ordenaProf, insereProf, removeDuplicados, npIsClose,
      round_eq, Except.map, abs_of_pos, abs_of_neg, abs_zero],
   by norm_num [poroPressaoSpec], by norm_num⟩

/-- Claim C3 (amended): in every successfully returned profile, each point's
pore pressure is the 4-decimal rounding of the spec's rule evaluated at the
point's exact depth, except for the surface point at depth `0`, whose pore
pressure is the special-cased value `-altura_capilar * gama_w` when
`profundidade_na ≤ 0` and the capillary fringe is positive, and `0`
otherwise. -/
theorem claim_C3_amended (dados : TensoesGeostaticasInput)
    (res : List TensaoPonto)
    (h : calcular_tensoes_geostaticas dados = .ok res) :
    ∀ p ∈ res, pressaoConformeSpec dados.profundidade_na dados.altura_capilar
      dados.peso_especifico_agua p := by
  obtain ⟨c0, cs, pts, hc, hL, hres⟩ := calcular_tensoes_ok h
  intro p hp
  rw [hres] at hp
  refine loopCamadas_pressao _ _ _ _ _ _ _ _ hL ?_ p
    (mem_ordenaProf _ _ (mem_removeDuplicados _ _ _ hp))
  intro q hq
  rw [List.mem_singleton] at hq
  rw [hq]
  right
  exact ⟨rfl, rfl⟩

/-- Witness for claim C3 (amended) at a concrete profile: the base point of
the single layer of the `na = 1`, `hcap = 2`, `gw = 10` profile. -/
theorem claim_C3_witness :
    pressaoConformeSpec 1 2 10 ⟨2, 38, 10, 28, 14⟩ :=
  claim_C3_amended ⟨[⟨2, some 18, some 20, 1/2⟩], 1, 2, 10⟩
    [⟨0, 0, 0, 0, 0⟩, ⟨1, 18, 0, 18, 9⟩, ⟨2, 38, 10, 28, 14⟩]
    (by norm_num [calcular_tensoes_geostaticas, pontoInicial, loopCamadas, passoCamada,
      pressaoNeutraBase, pyround, ordenaProf, insereProf, removeDuplicados, npIsClose,
      round_eq, Except.map, abs_of_pos, abs_of_neg, abs_zero])
    ⟨2, 38, 10, 28, 14⟩ (by norm_num)

/-- Claim C4, as stated, is false on the code: at the interface between two
layers (depth `1`, effective vertical stress `20`), the emitted effective
horizontal stress is `10 = 20 * Ko₁` — computed with the K0 of the layer
ABOVE the interface (`Ko₁ = 1/2`) — not `16 = 20 * Ko₂` with the K0 of the
layer immediately below (`Ko₂ = 4/5`) as the claim requires. -/
theorem claim_C4_counterexample :
    calcular_tensoes_geostaticas
        ⟨[⟨1, some 20, none, 1/2⟩, ⟨1, some 20, none, 4/5⟩], 10, 0, 10⟩ =
      .ok [⟨0, 0, 0, 0, 0⟩, ⟨1, 20, 0, 20, 10⟩, ⟨2, 40, 0, 40, 32⟩] ∧
    (10 : ℚ) = 20 * (1/2) ∧ ((10 : ℚ) ≠ 20 * (4/5)) :=
  ⟨by norm_num [calcular_tensoes_geostaticas, pontoInicial, loopCamadas, passoCamada,
      pressaoNeutraBase, pyround, ordenaProf, insereProf, removeDuplicados, npIsClose,
      round_eq, Except.map, abs_of_pos, abs_of_neg, abs_zero],
   by norm_num, by norm_num⟩

/-- Claim C4 (amended): in every successfully returned profile (with the
model's positive layer thicknesses), each point's effective horizontal
stress equals its pre-rounding effective vertical stress times the `Ko` of
the layer whose depth span contains the point's exact depth, where an
interface depth belongs to the layer immediately ABOVE it (and depth `0` to
the first layer) — not the layer below, as claimed. -/
theorem claim_C4_amended (dados : TensoesGeostaticasInput)
    (hesp : ∀ c ∈ dados.camadas, 0 < c.espessura)
    (res : List TensaoPonto)
    (h : calcular_tensoes_geostaticas dados = .ok res) :
    ∀ p ∈ res, horizontalConformeKo (spansFrom dados.camadas 0) p := by
  obtain ⟨c0, cs, pts, hc, hL, hres⟩ := calcular_tensoes_ok h
  intro p hp
  rw [hres] at hp
  have hesp' : ∀ c ∈ c0 :: cs, 0 < c.espessura := by rw [← hc]; exact hesp
  refine loopCamadas_Ko _ _ _ (spansFrom dados.camadas 0) _ _ _ _ _
    (by rw [hc]; exact fun s hs => hs) hesp' hL ?_ p
    (mem_ordenaProf _ _ (mem_removeDuplicados _ _ _ hp))
  intro q hq
  rw [List.mem_singleton] at hq
  rw [hq]
  refine ⟨(0, 0 + c0.espessura, c0.Ko), ?_, 0,
    0 - (if dados.profundidade_na ≤ 0 ∧ 0 < dados.altura_capilar then
      -dados.altura_capilar * dados.peso_especifico_agua else 0), ?_, ?_, ?_, ?_⟩
  · rw [hc, spansFrom.eq_def]
    exact List.mem_cons.mpr (Or.inl rfl)
  · exact Or.inl rfl
  · refine ⟨Or.inr ⟨rfl, rfl⟩, ?_⟩
    have := hesp' c0 (by simp)
    show (0 : ℚ) ≤ 0 + c0.espessura
    linarith
  · exact Or.inl rfl
  · exact Or.inl rfl

/-- Witness for claim C4 (amended) at a concrete two-layer profile: the
interface point at depth `1` satisfies the span-based `Ko` relation. -/
theorem claim_C4_witness :
    horizontalConformeKo
      (spansFrom [⟨1, some 20, none, 1/2⟩, ⟨1, some 20, none, 4/5⟩] 0)
      ⟨1, 20, 0, 20, 10⟩ :=
  claim_C4_amended ⟨[⟨1, some 20, none, 1/2⟩, ⟨1, some 20, none, 4/5⟩], 10, 0, 10⟩
    (by intro c hc; fin_cases hc <;> norm_num)
    [⟨0, 0, 0, 0, 0⟩, ⟨1, 20, 0, 20, 10⟩, ⟨2, 40, 0, 40, 32⟩]
    (by norm_num [calcular_tensoes_geostaticas, pontoInicial, loopCamadas, passoCamada,
      pressaoNeutraBase, pyround, ordenaProf, insereProf, removeDuplicados, npIsClose,
      round_eq, Except.map, abs_of_pos, abs_of_neg, abs_zero])
    ⟨1, 20, 0, 20, 10⟩ (by norm_num)

/-- Claim C7, as stated, is false on the code: the water-table interface
point is built without the nonnegativity clamp (lines 83-85 of
`tensoes_geoestaticas.py`), so a layer with a negative natural unit weight —
accepted by the model, which does not constrain the sign of unit weights —
yields a persisted negative effective vertical stress (`-5`) in a
successfully returned profile. -/
theorem claim_C7_counterexample :
    calcular_tensoes_geostaticas ⟨[⟨1, some (-10), some 10, 1/2⟩], 1/2, 0, 10⟩ =
      .ok [⟨0, 0, 0, 0, 0⟩, ⟨1/2, -5, 0, -5, -5/2⟩, ⟨1, 0, 5, 0, 0⟩] ∧
    ((-5 : ℚ) < 0) :=
  ⟨by norm_num [calcular_tensoes_geostaticas, pontoInicial, loopCamadas, passoCamada,
      pressaoNeutraBase, pyround, ordenaProf, insereProf, removeDuplicados, npIsClose,
      round_eq, Except.map, abs_of_pos, abs_of_neg, abs_zero],
   by norm_num⟩

/-- Claim C7 (amended): in every successfully returned profile whose inputs
satisfy the physically meaningful sign conditions (positive water unit
weight, positive thicknesses, nonnegative unit weights — the last not
enforced by the model), every point's effective vertical stress is
nonnegative. -/
theorem claim_C7_amended (dados : TensoesGeostaticasInput)
    (hgw : 0 < dados.peso_especifico_agua)
    (hesp : ∀ c ∈ dados.camadas, 0 < c.espessura)
    (hpesos : ∀ c ∈ dados.camadas, pesosNaoNegativos c)
    (res : List TensaoPonto)
    (h : calcular_tensoes_geostaticas dados = .ok res) :
    ∀ p ∈ res, 0 ≤ p.tensao_efetiva_vertical := by
  obtain ⟨c0, cs, pts, hc, hL, hres⟩ := calcular_tensoes_ok h
  intro p hp
  rw [hres] at hp
  refine loopCamadas_efetiva_nonneg _ _ _ _ _ _ _ _
    (by rw [← hc]; exact hesp) (by rw [← hc]; exact hpesos) le_rfl hL ?_ p
    (mem_ordenaProf _ _ (mem_removeDuplicados _ _ _ hp))
  intro q hq
  rw [List.mem_singleton] at hq
  rw [hq]
  show 0 ≤ 0 - (if dados.profundidade_na ≤ 0 ∧ 0 < dados.altura_capilar then
    -dados.altura_capilar * dados.peso_especifico_agua else 0)
  by_cases hna : dados.profundidade_na ≤ 0 ∧ 0 < dados.altura_capilar
  · rw [if_pos hna]
    nlinarith [hna.2, hgw]
  · rw [if_neg hna]
    norm_num

/-- Witness for claim C7 (amended) at a concrete profile: the base point of
a fully submerged layer has nonnegative effective vertical stress. -/
theorem claim_C7_witness :
    (0 : ℚ) ≤ (⟨1, 20, 10, 10, 5⟩ : TensaoPonto).tensao_efetiva_vertical :=
  claim_C7_amended ⟨[⟨1, none, some 20, 1/2⟩], 0, 1, 10⟩ (by norm_num)
    (by intro c hc; fin_cases hc <;> norm_num)
    (by
      intro c hcm
      rw [List.mem_singleton] at hcm
      subst hcm
      constructor
      · intro g hg
        cases hg
      · intro g hg
        rw [Option.some.injEq] at hg
        rw [← hg]
        norm_num)
    [⟨0, 0, -10, 10, 5⟩, ⟨1, 20, 10, 10, 5⟩]
    (by norm_num [calcular_tensoes_geostaticas, pontoInicial, loopCamadas, passoCamada,
      pressaoNeutraBase, pyround, ordenaProf, insereProf, removeDuplicados, npIsClose,
      round_eq, Except.map, abs_of_pos, abs_of_neg, abs_zero])
    ⟨1, 20, 10, 10, 5⟩ (by norm_num)

/-! ### Settlement estimator: claims C6 and C10 -/

theorem pyroundR_nonneg {n : ℕ} {x : ℝ} (hx : 0 ≤ x) : 0 ≤ pyroundR n x := by
  unfold pyroundR
  refine div_nonneg ?_ (by positivity)
  have h : (0 : ℤ) ≤ round (x * 10 ^ n) := by
    rw [round_eq]
    exact Int.le_floor.mpr (by push_cast; positivity)
  exact_mod_cast h

theorem montaRecalque_nonneg {e H0 svf RPA : ℝ} {s : String} (he : 0 ≤ e)
    (hH0 : 0 ≤ H0) :
    0 ≤ (montaRecalque e H0 svf RPA s).deformacao_volumetrica ∧
    0 ≤ (montaRecalque e H0 svf RPA s).recalque_total_primario :=
  ⟨pyroundR_nonneg he, pyroundR_nonneg (mul_nonneg he hH0)⟩

/-- The `log10` of a ratio `b / a` with `0 < a ≤ b` is nonnegative. -/
theorem logb10_div_nonneg {a b : ℝ} (ha : 0 < a) (hab : a ≤ b) :
    0 ≤ Real.logb 10 (b / a) :=
  Real.logb_nonneg (by norm_num) ((one_le_div ha).mpr hab)

/-- Claim C6: with all of `Cr`, `Cc`, `e0`, `σ'v0`, `σ'p` positive (the
estimator's preconditions), the crossing-into-virgin-compression strain
evaluated at `σ'vf = σ'p` equals the pure-recompression strain at the same
final stress, exactly: the virgin term contributes `log10(σ'p/σ'p) = 0`. -/
theorem claim_C6_continuidade (Cr Cc e0 sv0 svm : ℝ)
    (hCr : 0 < Cr) (hCc : 0 < Cc) (he0 : 0 < e0) (hsv0 : 0 < sv0)
    (hsvm : 0 < svm) :
    deformacaoCruzamento Cr Cc e0 sv0 svm svm =
      deformacaoRecompressao Cr e0 sv0 svm := by
  unfold deformacaoCruzamento deformacaoRecompressao
  rw [div_self (ne_of_gt hsvm), Real.logb_one]
  ring

/-- Witness for claim C6 at the concrete parameters
`Cr = Cc = e0 = σ'v0 = σ'p = 1`. -/
theorem claim_C6_witness :
    deformacaoCruzamento 1 1 1 1 1 1 = deformacaoRecompressao 1 1 1 1 :=
  claim_C6_continuidade 1 1 1 1 1 (by norm_num) (by norm_num) (by norm_num)
    (by norm_num) (by norm_num)

/-- Claim C10: for every input accepted by the estimator (`H0`, `e0`, `Cc`,
`Cr`, `σ'v0`, `σ'p` positive, `Δσ' ≥ 0`), a successfully returned result has
nonnegative volumetric strain and nonnegative total settlement, whichever
consolidation-state branch produced it. -/
theorem claim_C10_nao_negativo (dados : RecalqueAdensamentoInput)
    (hH0 : 0 < dados.espessura_camada) (he0 : 0 < dados.indice_vazios_inicial)
    (hCc : 0 < dados.Cc) (hCr : 0 < dados.Cr)
    (hsv0 : 0 < dados.tensao_efetiva_inicial)
    (hsvm : 0 < dados.tensao_pre_adensamento)
    (hds : 0 ≤ dados.acrescimo_tensao)
    (saida : RecalqueAdensamentoOutput)
    (h : calcular_recalque_adensamento dados = .ok saida) :
    0 ≤ saida.deformacao_volumetrica ∧ 0 ≤ saida.recalque_total_primario := by
  have hval : ¬ (dados.espessura_camada ≤ 0 ∨ dados.indice_vazios_inicial ≤ 0 ∨
      dados.Cc ≤ 0 ∨ dados.Cr ≤ 0 ∨ dados.tensao_efetiva_inicial ≤ 0 ∨
      dados.tensao_pre_adensamento ≤ 0 ∨ dados.acrescimo_tensao < 0) := by
    push_neg
    exact ⟨hH0, he0, hCc, hCr, hsv0, hsvm, hds⟩
  have he0' : ¬ 1 + dados.indice_vazios_inicial ≤ EPSILON := by
    unfold EPSILON
    push_neg
    linarith
  have hsvf : dados.tensao_efetiva_inicial ≤
      dados.tensao_efetiva_inicial + dados.acrescimo_tensao := by linarith
  simp only [calcular_recalque_adensamento, if_neg hval, if_neg he0'] at h
  by_cases hRPA : |dados.tensao_pre_adensamento / dados.tensao_efetiva_inicial - 1| <
      0.1
  · rw [if_pos hRPA] at h
    by_cases hz : dados.tensao_efetiva_inicial ≤ EPSILON
    · rw [if_pos hz] at h
      exact absurd h (by simp)
    · rw [if_neg hz] at h
      simp only [Except.ok.injEq] at h
      rw [← h]
      exact montaRecalque_nonneg
        (mul_nonneg (by positivity) (logb10_div_nonneg hsv0 hsvf)) hH0.le
  · rw [if_neg hRPA] at h
    by_cases hgt : 1 < dados.tensao_pre_adensamento / dados.tensao_efetiva_inicial
    · rw [if_pos hgt] at h
      by_cases hrec : dados.tensao_efetiva_inicial + dados.acrescimo_tensao ≤
          dados.tensao_pre_adensamento
      · rw [if_pos hrec] at h
        by_cases hz : dados.tensao_efetiva_inicial ≤ EPSILON
        · rw [if_pos hz] at h
          exact absurd h (by simp)
        · rw [if_neg hz] at h
          simp only [Except.ok.injEq] at h
          rw [← h]
          exact montaRecalque_nonneg
            (mul_nonneg (by positivity) (logb10_div_nonneg hsv0 hsvf)) hH0.le
      · rw [if_neg hrec] at h
        by_cases hz : dados.tensao_efetiva_inicial ≤ EPSILON ∨
            dados.tensao_pre_adensamento ≤ EPSILON
        · rw [if_pos hz] at h
          exact absurd h (by simp)
        · rw [if_neg hz] at h
          simp only [Except.ok.injEq] at h
          rw [← h]
          refine montaRecalque_nonneg (add_nonneg ?_ ?_) hH0.le
          · refine mul_nonneg (by positivity) (logb10_div_nonneg hsv0 ?_)
            have := (le_div_iff₀ hsv0).mp hgt.le
            linarith
          · exact mul_nonneg (by positivity)
              (logb10_div_nonneg hsvm (by linarith [lt_of_not_le hrec]))
    · rw [if_neg hgt] at h
      by_cases hz : dados.tensao_efetiva_inicial ≤ EPSILON
      · rw [if_pos hz] at h
        exact absurd h (by simp)
      · rw [if_neg hz] at h
        simp only [Except.ok.injEq] at h
        rw [← h]
        exact montaRecalque_nonneg
          (mul_nonneg (by positivity) (logb10_div_nonneg hsv0 hsvf)) hH0.le

/-- Witness for claim C10 on the normally consolidated branch with
`σ'v0 = 10`, `Δσ' = 90` (so `σ'vf = 100` and `RPA = 1`). -/
theorem claim_C10_witness :
    0 ≤ (montaRecalque (deformacaoVirgem (3/10) 1 10 100) 2 100 1
        "Normalmente Adensado (RPA ≈ 1)").deformacao_volumetrica ∧
    0 ≤ (montaRecalque (deformacaoVirgem (3/10) 1 10 100) 2 100 1
        "Normalmente Adensado (RPA ≈ 1)").recalque_total_primario :=
  claim_C10_nao_negativo ⟨2, 1, 3/10, 1/10, 10, 10, 90⟩ (by norm_num)
    (by norm_num) (by norm_num) (by norm_num) (by norm_num) (by norm_num)
    (by norm_num)
    (montaRecalque (deformacaoVirgem (3/10) 1 10 100) 2 100 1
      "Normalmente Adensado (RPA ≈ 1)")
    (by norm_num [calcular_recalque_adensamento, EPSILON, abs_of_nonneg])

/-! ### Consolidation-time converter: claims C9 and C5 -/

/-- A nonnegative time factor always yields a degree of consolidation. -/
theorem calcular_Uz_de_Tv_isSome {Tv : ℝ} (h : 0 ≤ Tv) :
    ∃ u, calcular_Uz_de_Tv Tv = some u := by
  unfold calcular_Uz_de_Tv
  rw [if_neg (not_lt.mpr h)]
  by_cases h0 : Tv = 0
  · rw [if_pos h0]
    exact ⟨_, rfl⟩
  · rw [if_neg h0]
    by_cases h3 : Tv ≤ 0.283
    · rw [if_pos h3]
      exact ⟨_, rfl⟩
    · rw [if_neg h3]
      exact ⟨_, rfl⟩

/-- A degree of consolidation within `[0, 100]` always yields a time factor
(possibly the infinite sentinel). -/
theorem calcular_Tv_de_Uz_isSome {u : ℝ} (h0 : 0 ≤ u) (h100 : u ≤ 100) :
    ∃ v, calcular_Tv_de_Uz u = some v := by
  unfold calcular_Tv_de_Uz
  rw [if_neg (by push_neg; exact ⟨h0, h100⟩)]
  by_cases hclose : npIsCloseR u 100
  · rw [if_pos hclose]
    exact ⟨_, rfl⟩
  · rw [if_neg hclose]
    by_cases hle : u / 100 ≤ 0.60
    · rw [if_pos hle]
      exact ⟨_, rfl⟩
    · rw [if_neg hle]
      exact ⟨_, rfl⟩

/-- Claim C9: with positive total settlement, `Cv` and `Hd`,
`calcular_tempo_adensamento` fails when both of (elapsed time, target degree)
are supplied and when neither is supplied, and succeeds when exactly one is
supplied with its own range precondition (`t ≥ 0`, resp. `Uz ∈ [0, 100]`). -/
theorem claim_C9_exclusividade (dados : TempoAdensamentoInput)
    (hH : 0 < dados.recalque_total_primario)
    (hCv : 0 < dados.coeficiente_adensamento)
    (hHd : 0 < dados.altura_drenagem) :
    ((∃ t, dados.tempo = some t) → (∃ u, dados.grau_adensamento_medio = some u) →
      ∃ msg, calcular_tempo_adensamento dados = .error msg) ∧
    (dados.tempo = none → dados.grau_adensamento_medio = none →
      ∃ msg, calcular_tempo_adensamento dados = .error msg) ∧
    (∀ t, dados.tempo = some t → dados.grau_adensamento_medio = none → 0 ≤ t →
      ∃ saida, calcular_tempo_adensamento dados = .ok saida) ∧
    (∀ u, dados.grau_adensamento_medio = some u → dados.tempo = none →
      0 ≤ u → u ≤ 100 →
      ∃ saida, calcular_tempo_adensamento dados = .ok saida) := by
  have hval : ¬ (dados.recalque_total_primario ≤ 0 ∨
      dados.coeficiente_adensamento ≤ 0 ∨ dados.altura_drenagem ≤ 0) := by
    push_neg
    exact ⟨hH, hCv, hHd⟩
  refine ⟨?_, ?_, ?_, ?_⟩
  · rintro ⟨t, ht⟩ ⟨u, hu⟩
    refine ⟨"Forneca apenas tempo OU grau_adensamento_medio, nao ambos.", ?_⟩
    simp only [calcular_tempo_adensamento, if_neg hval, ht, hu]
    simp
  · intro ht hu
    refine ⟨"E necessario fornecer tempo ou grau_adensamento_medio.", ?_⟩
    simp only [calcular_tempo_adensamento, if_neg hval, ht, hu]
    simp
  · intro t ht hu ht0
    simp only [calcular_tempo_adensamento, if_neg hval, ht, hu]
    simp only [Option.isNone_some, Option.isNone_none, Bool.false_and,
      Bool.and_false, Bool.false_eq_true, if_false, Option.isSome_some,
      Option.isSome_none, Bool.and_true, Bool.true_and]
    rw [if_neg (not_lt.mpr ht0)]
    by_cases h0 : t = 0
    · rw [if_pos h0]
      exact ⟨_, rfl⟩
    · rw [if_neg h0]
      have hTv : 0 ≤ dados.coeficiente_adensamento * t / dados.altura_drenagem ^ 2 := by
        have ht' : 0 < t := lt_of_le_of_ne ht0 (Ne.symm h0)
        positivity
      obtain ⟨u', hu'⟩ := calcular_Uz_de_Tv_isSome hTv
      rw [hu']
      exact ⟨_, rfl⟩
  · intro u hu ht hu0 hu100
    simp only [calcular_tempo_adensamento, if_neg hval, ht, hu]
    simp only [Option.isNone_some, Option.isNone_none, Bool.false_and,
      Bool.and_false, Bool.false_eq_true, if_false, Option.isSome_some,
      Option.isSome_none, Bool.and_true, Bool.true_and]
    obtain ⟨v, hv⟩ := calcular_Tv_de_Uz_isSome hu0 hu100
    rw [hv]
    cases v with
    | infinite => exact ⟨_, rfl⟩
    | finite Tv => exact ⟨_, rfl⟩

/-- Witness for claim C9: supplying both `t = 1` and `Uz = 50` on an
otherwise valid query yields a `ValidationError`. -/
theorem claim_C9_witness :
    ∃ msg, calcular_tempo_adensamento ⟨1, 2, 3, some 1, some 50⟩ = .error msg :=
  (claim_C9_exclusividade ⟨1, 2, 3, some 1, some 50⟩ (by norm_num) (by norm_num)
    (by norm_num)).1 ⟨1, rfl⟩ ⟨50, rfl⟩

/-- Key bound `log10 0.4 < -368/933 = -0.085/0.933 - 0.283/0.933`; equivalently
`2^1866 < 10^565`.  This is what makes the inverse mapping pick the
logarithmic branch for every forward value with `Uz > 60 %`. -/
theorem logb04_lt : Real.logb 10 (0.4 : ℝ) < -(368 / 933 : ℝ) := by
  rw [Real.logb_lt_iff_lt_rpow (by norm_num) (by norm_num)]
  have hR : ((10 : ℝ) ^ (-(368 / 933) : ℝ)) ^ (933 : ℕ) = (10 : ℝ) ^ (-368 : ℤ) := by
    rw [← Real.rpow_natCast ((10 : ℝ) ^ (-(368 / 933) : ℝ)) 933,
      ← Real.rpow_mul (by norm_num : (0 : ℝ) ≤ 10)]
    rw [show (-(368 / 933) : ℝ) * ((933 : ℕ) : ℝ) = ((-368 : ℤ) : ℝ) by
      push_cast; ring]
    exact Real.rpow_intCast 10 (-368)
  refine lt_of_pow_lt_pow_left 933 (by positivity) ?_
  rw [hR]
  norm_num

/-- For `0.6 < u < 1` the forward logarithmic branch value exceeds the
inverse mapping's branch threshold `0.283`. -/
theorem tv_log_branch_gt {u : ℝ} (h6 : 0.60 < u) (h1 : u < 1) :
    (0.283 : ℝ) < -0.933 * Real.logb 10 (1 - u) - 0.085 := by
  have h1u : 0 < 1 - u := by linarith
  have hlt : Real.logb 10 (1 - u) < Real.logb 10 0.4 :=
    Real.logb_lt_logb (by norm_num) h1u (by linarith)
  have h04 := logb04_lt
  linarith

/-- Claim C5: the time-factor mapping round-trips on `[0, 100)` — exactly on
`[0, 100 - 0.00100001)` and to `100` within `0.0011` on the `np.isclose`
window — and the forward mapping sends `Uz = 100` to the infinite sentinel,
not a finite number. -/
theorem claim_C5_roundtrip :
    (∀ Uz : ℝ, 0 ≤ Uz → Uz < 100 →
      ∃ u, (calcular_Tv_de_Uz Uz).bind calcular_Uz_de_Tv_val = some u ∧
        |u - Uz| ≤ 11 / 10000) ∧
    calcular_Tv_de_Uz 100 = some TvVal.infinite := by
  constructor
  · intro Uz h0 h100
    have hne : ¬ (Uz < 0 ∨ 100 < Uz) := by push_neg; exact ⟨h0, h100.le⟩
    by_cases hclose : npIsCloseR Uz 100
    · have hTv : calcular_Tv_de_Uz Uz = some TvVal.infinite := by
        unfold calcular_Tv_de_Uz
        rw [if_neg hne, if_pos hclose]
      refine ⟨100, by rw [hTv]; rfl, ?_⟩
      unfold npIsCloseR at hclose
      rw [show |(100 : ℝ)| = 100 by norm_num, abs_sub_comm] at hclose
      calc |100 - Uz| ≤ 1 / 100000000 + 100 / 100000 := hclose
        _ ≤ 11 / 10000 := by norm_num
    · by_cases hle : Uz / 100 ≤ 0.60
      · have hTv : calcular_Tv_de_Uz Uz =
            some (.finite ((Real.pi / 4) * (Uz / 100) ^ 2)) := by
          simp only [calcular_Tv_de_Uz]
          rw [if_neg hne, if_neg hclose, if_pos hle]
        refine ⟨Uz, ?_, by norm_num [sub_self]⟩
        rw [hTv]
        show calcular_Uz_de_Tv ((Real.pi / 4) * (Uz / 100) ^ 2) = some Uz
        have hTvpos : 0 ≤ (Real.pi / 4) * (Uz / 100) ^ 2 := by positivity
        simp only [calcular_Uz_de_Tv]
        rw [if_neg (not_lt.mpr hTvpos)]
        by_cases hz : Uz = 0
        · subst hz
          rw [if_pos (by norm_num)]
        · have hUzpos : 0 < Uz := lt_of_le_of_ne h0 (Ne.symm hz)
          have hT0 : ¬ (Real.pi / 4) * (Uz / 100) ^ 2 = 0 := by positivity
          rw [if_neg hT0]
          have h283 : (Real.pi / 4) * (Uz / 100) ^ 2 ≤ 0.283 := by
            have hpi : Real.pi < 3.141593 := Real.pi_lt_3141593
            have hsq : (Uz / 100) ^ 2 ≤ 0.36 := by nlinarith
            nlinarith [Real.pi_pos]
          rw [if_pos h283]
          have h4 : 4 * ((Real.pi / 4) * (Uz / 100) ^ 2) / Real.pi =
              (Uz / 100) ^ 2 := by
            field_simp
            ring
          rw [h4, Real.sqrt_sq (by positivity)]
          unfold npClip01
          rw [max_eq_right (by positivity), min_eq_right (by linarith),
            div_mul_cancel₀ _ (by norm_num : (100 : ℝ) ≠ 0)]
      · have h6 : (0.60 : ℝ) < Uz / 100 := lt_of_not_le hle
        have h1 : Uz / 100 < 1 := by linarith
        have h1u : (0 : ℝ) < 1 - Uz / 100 := by linarith
        have hTv : calcular_Tv_de_Uz Uz =
            some (.finite (-0.933 * Real.logb 10 (1 - Uz / 100) - 0.085)) := by
          simp only [calcular_Tv_de_Uz]
          rw [if_neg hne, if_neg hclose, if_neg hle]
        refine ⟨Uz, ?_, by norm_num [sub_self]⟩
        rw [hTv]
        show calcular_Uz_de_Tv (-0.933 * Real.logb 10 (1 - Uz / 100) - 0.085) =
          some Uz
        have hTvgt : (0.283 : ℝ) <
            -0.933 * Real.logb 10 (1 - Uz / 100) - 0.085 :=
          tv_log_branch_gt h6 h1
        simp only [calcular_Uz_de_Tv]
        rw [if_neg (not_lt.mpr (by linarith))]
        rw [if_neg (show ¬ -0.933 * Real.logb 10 (1 - Uz / 100) - 0.085 = 0 by
          intro hh
          rw [hh] at hTvgt
          norm_num at hTvgt)]
        rw [if_neg (not_le.mpr hTvgt)]
        rw [show -((-0.933 * Real.logb 10 (1 - Uz / 100) - 0.085) + 0.085) /
            0.933 = Real.logb 10 (1 - Uz / 100) by ring]
        have hnotclose : 1 / 100000000 + 100 / 100000 < 100 - Uz := by
          unfold npIsCloseR at hclose
          rw [show |(100 : ℝ)| = 100 by norm_num] at hclose
          push_neg at hclose
          rw [abs_of_neg (by linarith : Uz - 100 < 0)] at hclose
          linarith
        have h1ub : (1 / 1000000 : ℝ) < 1 - Uz / 100 := by linarith
        have hL6 : -(6 : ℝ) ≤ Real.logb 10 (1 - Uz / 100) := by
          rw [show (1 / 1000000 : ℝ) = (10 : ℝ) ^ (-6 : ℝ) by
            rw [show (-6 : ℝ) = ((-6 : ℤ) : ℝ) by norm_num, Real.rpow_intCast]
            norm_num] at h1ub
          calc -(6 : ℝ) = Real.logb 10 ((10 : ℝ) ^ (-6 : ℝ)) := by
                rw [Real.logb_rpow (by norm_num) (by norm_num)]
            _ ≤ Real.logb 10 (1 - Uz / 100) :=
                Real.logb_le_logb_of_le (by norm_num) (by positivity) h1ub.le
        rw [if_neg (by linarith : ¬ Real.logb 10 (1 - Uz / 100) < -30)]
        rw [Real.rpow_logb (by norm_num) (by norm_num) h1u]
        rw [show (1 : ℝ) - (1 - Uz / 100) = Uz / 100 by ring]
        unfold npClip01
        rw [max_eq_right (by positivity), min_eq_right (by linarith),
          div_mul_cancel₀ _ (by norm_num : (100 : ℝ) ≠ 0)]
  · unfold calcular_Tv_de_Uz
    rw [if_neg (by norm_num), if_pos (by unfold npIsCloseR; norm_num)]

/-- Witness for claim C5: the round trip at `Uz = 50` and the infinite
forward value at `Uz = 100`. -/
theorem claim_C5_witness :
    (∃ u, (calcular_Tv_de_Uz 50).bind calcular_Uz_de_Tv_val = some u ∧
      |u - 50| ≤ 11 / 10000) ∧
    calcular_Tv_de_Uz 100 = some TvVal.infinite :=
  ⟨claim_C5_roundtrip.1 50 (by norm_num) (by norm_num), claim_C5_roundtrip.2⟩

/-! ### Strip load (Carothers): claim C2 -/

/-- Claim C2, as stated, is false on the code: the source reads the
horizontal offset as `ponto.x` and never subtracts `centro_x`.  With a strip
of width `2` centred at `centro_x = 1` and the point `(0, 0, 1)`, the code
yields `(1/π)(π/2 + 1)` (as if the strip were centred at the origin) while
the claimed formula, measuring the offset from `centro_x`, yields
`(1/π)(arctan 2 + 2/5) < (1/π)(π/2 + 1)`. -/
theorem claim_C2_counterexample :
    calcular_acrescimo_carothers_faixa ⟨2, 1, 1⟩ ⟨0, 0, 1⟩ ≠
      carothersSpecFormula 2 1 1 0 1 := by
  have hcode : calcular_acrescimo_carothers_faixa ⟨2, 1, 1⟩ ⟨0, 0, 1⟩ =
      (1 / Real.pi) * (Real.pi / 2 + 1) := by
    simp only [calcular_acrescimo_carothers_faixa]
    rw [if_neg (by norm_num [EPSILON])]
    norm_num
    left
    rw [show Real.pi / 4 + Real.pi / 4 = Real.pi / 2 by ring,
      Real.sin_pi_div_two]
  have hspec : carothersSpecFormula 2 1 1 0 1 =
      (1 / Real.pi) * (Real.arctan 2 + 2 / 5) := by
    simp only [carothersSpecFormula]
    norm_num
    left
    rw [Real.sin_arctan, Real.cos_arctan, div_mul_div_comm,
      Real.mul_self_sqrt (by positivity : (0 : ℝ) ≤ 1 + (2 : ℝ) ^ 2)]
    norm_num
  rw [hcode, hspec]
  intro heq
  have h2 : Real.pi / 2 + 1 = Real.arctan 2 + 2 / 5 :=
    mul_left_cancel₀ (show (1 / Real.pi : ℝ) ≠ 0 by positivity) heq
  have harct : Real.arctan 2 < Real.pi / 2 := Real.arctan_lt_pi_div_two 2
  linarith

/-- Claim C2 (amended): for `z > 1e-9` the strip increment follows the
Carothers formula with the horizontal offset taken as the point's `x`
directly — the strip is implicitly centred at `x = 0` and the configured
`centro_x` is ignored. -/
theorem claim_C2_amended (b p cx x y z : ℝ) (hz : EPSILON < z) :
    calcular_acrescimo_carothers_faixa ⟨b, p, cx⟩ ⟨x, y, z⟩ =
      carothersSpecFormula b p 0 x z := by
  simp only [calcular_acrescimo_carothers_faixa, carothersSpecFormula]
  rw [if_neg (not_le.mpr hz)]
  norm_num

/-- Witness for claim C2 (amended): a strip with `centro_x = 5` and the
point `(0, 0, 1)`. -/
theorem claim_C2_witness :
    calcular_acrescimo_carothers_faixa ⟨2, 1, 5⟩ ⟨0, 0, 1⟩ =
      carothersSpecFormula 2 1 0 0 1 :=
  claim_C2_amended 2 1 5 0 0 1 (by norm_num [EPSILON])

/-! ### Love chart (ábaco): claims C8 and C1 -/

theorem zRInf_eval_A {q : ℝ} (h : q < 0.5) : zRInf q = 0.5 := by
  have hf : zRKeys.filter (fun k => decide (k ≤ q)) = [] := by
    simp only [zRKeys, List.filter_cons, List.filter_nil, decide_eq_true_eq]
    rw [if_neg (by linarith), if_neg (by linarith), if_neg (by linarith),
      if_neg (by linarith), if_neg (by linarith)]
  simp only [zRInf]
  rw [hf]
  norm_num [listMax, listMin, zRKeys, min_def]

theorem zRInf_eval_B {q : ℝ} (h1 : 0.5 ≤ q) (h2 : q < 1) : zRInf q = 0.5 := by
  have hf : zRKeys.filter (fun k => decide (k ≤ q)) = [0.5] := by
    simp only [zRKeys, List.filter_cons, List.filter_nil, decide_eq_true_eq]
    rw [if_pos h1, if_neg (by linarith), if_neg (by linarith),
      if_neg (by linarith), if_neg (by linarith)]
  simp only [zRInf]
  rw [hf]
  norm_num [listMax]

theorem zRInf_eval_C {q : ℝ} (h1 : 1 ≤ q) (h2 : q < 1.5) : zRInf q = 1 := by
  have hf : zRKeys.filter (fun k => decide (k ≤ q)) = [0.5, 1] := by
    simp only [zRKeys, List.filter_cons, List.filter_nil, decide_eq_true_eq]
    rw [if_pos (by linarith), if_pos h1, if_neg (by linarith),
      if_neg (by linarith), if_neg (by linarith)]
  simp only [zRInf]
  rw [hf]
  norm_num [listMax, max_def]

theorem zRInf_eval_D {q : ℝ} (h1 : 1.5 ≤ q) (h2 : q < 2) : zRInf q = 1.5 := by
  have hf : zRKeys.filter (fun k => decide (k ≤ q)) = [0.5, 1, 1.5] := by
    simp only [zRKeys, List.filter_cons, List.filter_nil, decide_eq_true_eq]
    rw [if_pos (by linarith), if_pos (by linarith), if_pos h1,
      if_neg (by linarith), if_neg (by linarith)]
  simp only [zRInf]
  rw [hf]
  norm_num [listMax, max_def]

theorem zRInf_eval_E {q : ℝ} (h1 : 2 ≤ q) (h2 : q < 3) : zRInf q = 2 := by
  have hf : zRKeys.filter (fun k => decide (k ≤ q)) = [0.5, 1, 1.5, 2] := by
    simp only [zRKeys, List.filter_cons, List.filter_nil, decide_eq_true_eq]
    rw [if_pos (by linarith), if_pos (by linarith), if_pos (by linarith),
      if_pos h1, if_neg (by linarith)]
  simp only [zRInf]
  rw [hf]
  norm_num [listMax, max_def]

theorem zRInf_eval_F {q : ℝ} (h1 : 3 ≤ q) : zRInf q = 3 := by
  have hf : zRKeys.filter (fun k => decide (k ≤ q)) = [0.5, 1, 1.5, 2, 3] := by
    simp only [zRKeys, List.filter_cons, List.filter_nil, decide_eq_true_eq]
    rw [if_pos (by linarith), if_pos (by linarith), if_pos (by linarith),
      if_pos (by linarith), if_pos h1]
  simp only [zRInf]
  rw [hf]
  norm_num [listMax, max_def]

theorem zRSup_eval_A {q : ℝ} (h : q ≤ 0.5) : zRSup q = 0.5 := by
  have hf : zRKeys.filter (fun k => decide (q ≤ k)) = [0.5, 1, 1.5, 2, 3] := by
    simp only [zRKeys, List.filter_cons, List.filter_nil, decide_eq_true_eq]
    rw [if_pos h, if_pos (by linarith), if_pos (by linarith),
      if_pos (by linarith), if_pos (by linarith)]
  simp only [zRSup]
  rw [hf]
  norm_num [listMin, min_def]

theorem zRSup_eval_B {q : ℝ} (h1 : 0.5 < q) (h2 : q ≤ 1) : zRSup q = 1 := by
  have hf : zRKeys.filter (fun k => decide (q ≤ k)) = [1, 1.5, 2, 3] := by
    simp only [zRKeys, List.filter_cons, List.filter_nil, decide_eq_true_eq]
    rw [if_neg (by linarith), if_pos h2, if_pos (by linarith),
      if_pos (by linarith), if_pos (by linarith)]
  simp only [zRSup]
  rw [hf]
  norm_num [listMin, min_def]

theorem zRSup_eval_C {q : ℝ} (h1 : 1 < q) (h2 : q ≤ 1.5) : zRSup q = 1.5 := by
  have hf : zRKeys.filter (fun k => decide (q ≤ k)) = [1.5, 2, 3] := by
    simp only [zRKeys, List.filter_cons, List.filter_nil, decide_eq_true_eq]
    rw [if_neg (by linarith), if_neg (by linarith), if_pos h2,
      if_pos (by linarith), if_pos (by linarith)]
  simp only [zRSup]
  rw [hf]
  norm_num [listMin, min_def]

theorem zRSup_eval_D {q : ℝ} (h1 : 1.5 < q) (h2 : q ≤ 2) : zRSup q = 2 := by
  have hf : zRKeys.filter (fun k => decide (q ≤ k)) = [2, 3] := by
    simp only [zRKeys, List.filter_cons, List.filter_nil, decide_eq_true_eq]
    rw [if_neg (by linarith), if_neg (by linarith), if_neg (by linarith),
      if_pos h2, if_pos (by linarith)]
  simp only [zRSup]
  rw [hf]
  norm_num [listMin, min_def]

theorem zRSup_eval_E {q : ℝ} (h1 : 2 < q) (h2 : q ≤ 3) : zRSup q = 3 := by
  have hf : zRKeys.filter (fun k => decide (q ≤ k)) = [3] := by
    simp only [zRKeys, List.filter_cons, List.filter_nil, decide_eq_true_eq]
    rw [if_neg (by linarith), if_neg (by linarith), if_neg (by linarith),
      if_neg (by linarith), if_pos h2]
  simp only [zRSup]
  rw [hf]
  norm_num [listMin]

theorem zRSup_eval_F {q : ℝ} (h1 : 3 < q) : zRSup q = 3 := by
  have hf : zRKeys.filter (fun k => decide (q ≤ k)) = [] := by
    simp only [zRKeys, List.filter_cons, List.filter_nil, decide_eq_true_eq]
    rw [if_neg (by linarith), if_neg (by linarith), if_neg (by linarith),
      if_neg (by linarith), if_neg (by linarith)]
  simp only [zRSup]
  rw [hf]
  norm_num [listMin, listMax, zRKeys, max_def]

/-- Step 1 of the chart procedure refines the spec's "nearest tabulated key
`≤` the query, or the minimum key if none". -/
theorem zRInf_nearest (q : ℝ) : NearestKeyLE zRKeys q (zRInf q) := by
  rcases lt_or_le q 0.5 with h | h05
  · rw [zRInf_eval_A h]
    right
    refine ⟨?_, by norm_num [zRKeys, listMin, min_def]⟩
    intro j hj hle
    simp only [zRKeys, List.mem_cons, List.not_mem_nil, or_false] at hj
    rcases hj with rfl | rfl | rfl | rfl | rfl <;> linarith
  · rcases lt_or_le q 1 with h | h1
    · rw [zRInf_eval_B h05 h]
      refine Or.inl ⟨by norm_num [zRKeys], h05, ?_⟩
      intro j hj hle
      simp only [zRKeys, List.mem_cons, List.not_mem_nil, or_false] at hj
      rcases hj with rfl | rfl | rfl | rfl | rfl <;> linarith
    · rcases lt_or_le q 1.5 with h | h15
      · rw [zRInf_eval_C h1 h]
        refine Or.inl ⟨by norm_num [zRKeys], h1, ?_⟩
        intro j hj hle
        simp only [zRKeys, List.mem_cons, List.not_mem_nil, or_false] at hj
        rcases hj with rfl | rfl | rfl | rfl | rfl <;> linarith
      · rcases lt_or_le q 2 with h | h2
        · rw [zRInf_eval_D h15 h]
          refine Or.inl ⟨by norm_num [zRKeys], h15, ?_⟩
          intro j hj hle
          simp only [zRKeys, List.mem_cons, List.not_mem_nil, or_false] at hj
          rcases hj with rfl | rfl | rfl | rfl | rfl <;> linarith
        · rcases lt_or_le q 3 with h | h3
          · rw [zRInf_eval_E h2 h]
            refine Or.inl ⟨by norm_num [zRKeys], h2, ?_⟩
            intro j hj hle
            simp only [zRKeys, List.mem_cons, List.not_mem_nil, or_false] at hj
            rcases hj with rfl | rfl | rfl | rfl | rfl <;> linarith
          · rw [zRInf_eval_F h3]
            refine Or.inl ⟨by norm_num [zRKeys], h3, ?_⟩
            intro j hj hle
            simp only [zRKeys, List.mem_cons, List.not_mem_nil, or_false] at hj
            rcases hj with rfl | rfl | rfl | rfl | rfl <;> linarith

/-- Step 1 of the chart procedure refines the spec's "nearest tabulated key
`≥` the query, or the maximum key if none". -/
theorem zRSup_nearest (q : ℝ) : NearestKeyGE zRKeys q (zRSup q) := by
  rcases le_or_lt q 0.5 with h | h05
  · rw [zRSup_eval_A h]
    refine Or.inl ⟨by norm_num [zRKeys], h, ?_⟩
    intro j hj hle
    simp only [zRKeys, List.mem_cons, List.not_mem_nil, or_false] at hj
    rcases hj with rfl | rfl | rfl | rfl | rfl <;> linarith
  · rcases le_or_lt q 1 with h | h1
    · rw [zRSup_eval_B h05 h]
      refine Or.inl ⟨by norm_num [zRKeys], h, ?_⟩
      intro j hj hle
      simp only [zRKeys, List.mem_cons, List.not_mem_nil, or_false] at hj
      rcases hj with rfl | rfl | rfl | rfl | rfl <;> linarith
    · rcases le_or_lt q 1.5 with h | h15
      · rw [zRSup_eval_C h1 h]
        refine Or.inl ⟨by norm_num [zRKeys], h, ?_⟩
        intro j hj hle
        simp only [zRKeys, List.mem_cons, List.not_mem_nil, or_false] at hj
        rcases hj with rfl | rfl | rfl | rfl | rfl <;> linarith
      · rcases le_or_lt q 2 with h | h2
        · rw [zRSup_eval_D h15 h]
          refine Or.inl ⟨by norm_num [zRKeys], h, ?_⟩
          intro j hj hle
          simp only [zRKeys, List.mem_cons, List.not_mem_nil, or_false] at hj
          rcases hj with rfl | rfl | rfl | rfl | rfl <;> linarith
        · rcases le_or_lt q 3 with h | h3
          · rw [zRSup_eval_E h2 h]
            refine Or.inl ⟨by norm_num [zRKeys], h, ?_⟩
            intro j hj hle
            simp only [zRKeys, List.mem_cons, List.not_mem_nil, or_false] at hj
            rcases hj with rfl | rfl | rfl | rfl | rfl <;> linarith
          · rw [zRSup_eval_F h3]
            right
            refine ⟨?_, by norm_num [zRKeys, listMax, max_def]⟩
            intro j hj hle
            simp only [zRKeys, List.mem_cons, List.not_mem_nil, or_false] at hj
            rcases hj with rfl | rfl | rfl | rfl | rfl <;> linarith

theorem zRInf_mem (q : ℝ) : zRInf q ∈ zRKeys := by
  rcases lt_or_le q 0.5 with h | h05
  · rw [zRInf_eval_A h]; norm_num [zRKeys]
  · rcases lt_or_le q 1 with h | h1
    · rw [zRInf_eval_B h05 h]; norm_num [zRKeys]
    · rcases lt_or_le q 1.5 with h | h15
      · rw [zRInf_eval_C h1 h]; norm_num [zRKeys]
      · rcases lt_or_le q 2 with h | h2
        · rw [zRInf_eval_D h15 h]; norm_num [zRKeys]
        · rcases lt_or_le q 3 with h | h3
          · rw [zRInf_eval_E h2 h]; norm_num [zRKeys]
          · rw [zRInf_eval_F h3]; norm_num [zRKeys]

theorem curvaAbaco_eval_05 : curvaAbaco 0.5 =
    [(0, 0.91), (0.5, 0.85), (0.75, 0.75), (1.0, 0.50), (1.25, 0.23), (1.5, 0.10)] := by
  simp only [curvaAbaco, abacoData]
  rw [List.find?_cons_of_pos _ (by norm_num)]
  rfl

theorem curvaAbaco_eval_1 : curvaAbaco 1 =
    [(0, 0.65), (0.5, 0.60), (0.75, 0.52), (1.0, 0.37), (1.25, 0.22), (1.5, 0.12)] := by
  simp only [curvaAbaco, abacoData]
  rw [List.find?_cons_of_neg _ (by norm_num), List.find?_cons_of_pos _ (by norm_num)]
  rfl

theorem curvaAbaco_eval_15 : curvaAbaco 1.5 =
    [(0, 0.42), (0.5, 0.40), (0.75, 0.36), (1.0, 0.29), (1.25, 0.20), (1.5, 0.13)] := by
  simp only [curvaAbaco, abacoData]
  rw [List.find?_cons_of_neg _ (by norm_num), List.find?_cons_of_neg _ (by norm_num),
    List.find?_cons_of_pos _ (by norm_num)]
  rfl

theorem curvaAbaco_eval_2 : curvaAbaco 2 =
    [(0, 0.29), (0.5, 0.28), (0.75, 0.26), (1.0, 0.22), (1.25, 0.17), (1.5, 0.12)] := by
  simp only [curvaAbaco, abacoData]
  rw [List.find?_cons_of_neg _ (by norm_num), List.find?_cons_of_neg _ (by norm_num),
    List.find?_cons_of_neg _ (by norm_num), List.find?_cons_of_pos _ (by norm_num)]
  rfl

theorem curvaAbaco_eval_3 : curvaAbaco 3 =
    [(0, 0.14), (0.5, 0.14), (0.75, 0.13), (1.0, 0.12), (1.25, 0.10), (1.5, 0.08)] := by
  simp only [curvaAbaco, abacoData]
  rw [List.find?_cons_of_neg _ (by norm_num), List.find?_cons_of_neg _ (by norm_num),
    List.find?_cons_of_neg _ (by norm_num), List.find?_cons_of_neg _ (by norm_num),
    List.find?_cons_of_pos _ (by norm_num)]
  rfl

/-- The synthetic curve keeps the `r/R` grid of the lower bracketing curve. -/
theorem curvaSintetica_fst (q : ℝ) :
    (curvaSintetica q).map Prod.fst = (curvaAbaco (zRInf q)).map Prod.fst := by
  simp only [curvaSintetica]
  by_cases h : zRInf q = zRSup q
  · rw [if_pos h]
  · rw [if_neg h, List.map_map]
    exact List.map_congr_left fun pr _ => rfl

/-- Every synthetic curve has the fixed `r/R` grid of the embedded chart. -/
theorem curvaSintetica_grid (q : ℝ) :
    (curvaSintetica q).map Prod.fst = [0, 0.5, 0.75, 1, 1.25, 1.5] := by
  rw [curvaSintetica_fst]
  have h := zRInf_mem q
  simp only [zRKeys, List.mem_cons, List.not_mem_nil, or_false] at h
  rcases h with h | h | h | h | h <;> rw [h]
  · rw [curvaAbaco_eval_05]; norm_num [List.map_cons, List.map_nil]
  · rw [curvaAbaco_eval_1]; norm_num [List.map_cons, List.map_nil]
  · rw [curvaAbaco_eval_15]; norm_num [List.map_cons, List.map_nil]
  · rw [curvaAbaco_eval_2]; norm_num [List.map_cons, List.map_nil]
  · rw [curvaAbaco_eval_3]; norm_num [List.map_cons, List.map_nil]

/-- The code's final nonnegativity clamp written with `max`. -/
theorem clampNonneg (x : ℝ) : (if x < 0 then 0 else x) = max 0 x := by
  by_cases h : x < 0
  · rw [if_pos h, max_eq_left h.le]
  · rw [if_neg h, max_eq_right (not_lt.mp h)]

/-- The clamped value `if x < 0 then 0 else x` is nonnegative. -/
theorem ite_clamp_nonneg (x : ℝ) : (0 : ℝ) ≤ if x < 0 then 0 else x := by
  by_cases h : x < 0
  · rw [if_pos h]
  · rw [if_neg h]
    exact not_lt.mp h

theorem fatorAbaco_nonneg (q rr : ℝ) : 0 ≤ fatorAbaco q rr := by
  simp only [fatorAbaco]
  exact ite_clamp_nonneg _

/-- Beyond the right end of the tabulated `r/R` range the factor is the last
tabulated factor of the synthetic curve (clamped to `≥ 0`), with no
extrapolation. -/
theorem fatorAbaco_right {q rr : ℝ} (h : 1.5 ≤ rr) :
    fatorAbaco q rr =
      max 0 ((((curvaSintetica q).map Prod.snd).getLast?).getD 0) := by
  simp only [fatorAbaco]
  rw [curvaSintetica_grid q]
  rw [show ((([0, 0.5, 0.75, 1, 1.25, 1.5] : List ℝ).getLast?).getD 0) = 1.5
    from rfl]
  rw [if_pos h, clampNonneg]

/-- At or before the left end of the tabulated `r/R` range the factor is the
first tabulated factor of the synthetic curve (clamped to `≥ 0`). -/
theorem fatorAbaco_left {q rr : ℝ} (h : rr ≤ 0) :
    fatorAbaco q rr =
      max 0 ((((curvaSintetica q).map Prod.snd).head?).getD 0) := by
  simp only [fatorAbaco]
  rw [curvaSintetica_grid q]
  rw [show ((([0, 0.5, 0.75, 1, 1.25, 1.5] : List ℝ).getLast?).getD 0) = 1.5
    from rfl]
  rw [show ((([0, 0.5, 0.75, 1, 1.25, 1.5] : List ℝ).head?).getD 0) = 0
    from rfl]
  rw [if_neg (show ¬ (1.5 : ℝ) ≤ rr by linarith), if_pos h, clampNonneg]

/-- Claim C8, as stated for every `z > 0`, is false on the code: for
`z = 1e-10 ≤ EPSILON` the chart procedure is bypassed by the surface
shortcut.  With `R = 1` and the point `(2, 0, 1e-10)` the code returns `0`
(the point is outside the circle), while the interpolation procedure the
claim describes yields `intensity × factor = 0.10` (curve `z/R = 0.5`,
clamped at `r/R = 1.5`). -/
theorem claim_C8_counterexample :
    calcular_acrescimo_love_circular_abaco ⟨1, 1, 0, 0⟩ ⟨2, 0, 1 / 10000000000⟩ = 0 ∧
    (1 : ℝ) * fatorAbaco ((1 / 10000000000) / 1)
      (Real.sqrt ((2 : ℝ) ^ 2 + 0 ^ 2) / 1) = 1 / 10 ∧
    (0 : ℝ) ≠ 1 / 10 := by
  have hsqrt : Real.sqrt ((2 : ℝ) ^ 2 + 0 ^ 2) = 2 := by
    rw [show (2 : ℝ) ^ 2 + 0 ^ 2 = 2 ^ 2 by norm_num, Real.sqrt_sq (by norm_num)]
  refine ⟨?_, ?_, by norm_num⟩
  · simp only [calcular_acrescimo_love_circular_abaco]
    rw [if_pos (by norm_num [EPSILON])]
    rw [hsqrt]
    rw [if_neg (by norm_num)]
  · rw [hsqrt]
    have hinf : zRInf ((1 / 10000000000 : ℝ) / 1) = 0.5 :=
      zRInf_eval_A (by norm_num)
    have hsup : zRSup ((1 / 10000000000 : ℝ) / 1) = 0.5 :=
      zRSup_eval_A (by norm_num)
    have hsint : curvaSintetica ((1 / 10000000000 : ℝ) / 1) = curvaAbaco 0.5 := by
      simp only [curvaSintetica]
      rw [if_pos (by rw [hinf, hsup]), hinf]
    simp only [fatorAbaco]
    rw [hsint, curvaAbaco_eval_05]
    norm_num

/-- Claim C8 (amended): for every chart query with `z > 1e-9` (and
`R > 1e-9`), step 1 brackets `z/R` by the nearest tabulated keys (minimum /
maximum when none qualifies), a query `r/R` outside the tabulated range gets
the nearest endpoint's factor of the synthetic curve with no extrapolation,
the factor is clamped to `≥ 0`, and `Δσv = intensity × factor`. -/
theorem claim_C8_abaco (p R x y z cx cy : ℝ) (hz : EPSILON < z)
    (hR : EPSILON < R) (hoff : ¬ (x = 0 ∧ y = 0)) :
    NearestKeyLE zRKeys (z / R) (zRInf (z / R)) ∧
    NearestKeyGE zRKeys (z / R) (zRSup (z / R)) ∧
    (∀ rr, 1.5 ≤ rr → fatorAbaco (z / R) rr =
      max 0 ((((curvaSintetica (z / R)).map Prod.snd).getLast?).getD 0)) ∧
    (∀ rr, rr ≤ 0 → fatorAbaco (z / R) rr =
      max 0 ((((curvaSintetica (z / R)).map Prod.snd).head?).getD 0)) ∧
    0 ≤ fatorAbaco (z / R) (Real.sqrt (x ^ 2 + y ^ 2) / R) ∧
    calcular_acrescimo_love_circular_abaco ⟨R, p, cx, cy⟩ ⟨x, y, z⟩ =
      p * fatorAbaco (z / R) (Real.sqrt (x ^ 2 + y ^ 2) / R) := by
  refine ⟨zRInf_nearest _, zRSup_nearest _, fun rr h => fatorAbaco_right h,
    fun rr h => fatorAbaco_left h, fatorAbaco_nonneg _ _, ?_⟩
  simp only [calcular_acrescimo_love_circular_abaco]
  rw [if_neg (not_le.mpr hz), if_neg (not_le.mpr hR)]

/-- Witness for claim C8 (amended) at the off-axis query `R = 1`,
`(x, y, z) = (1, 0, 1)`: the clamp bound and the product form. -/
theorem claim_C8_witness :
    0 ≤ fatorAbaco ((1 : ℝ) / 1) (Real.sqrt ((1 : ℝ) ^ 2 + 0 ^ 2) / 1) ∧
    calcular_acrescimo_love_circular_abaco ⟨1, 1, 0, 0⟩ ⟨1, 0, 1⟩ =
      1 * fatorAbaco ((1 : ℝ) / 1) (Real.sqrt ((1 : ℝ) ^ 2 + 0 ^ 2) / 1) :=
  have h := claim_C8_abaco 1 1 1 0 1 0 0 (by norm_num [EPSILON])
    (by norm_num [EPSILON]) (by norm_num)
  ⟨h.2.2.2.2.1, h.2.2.2.2.2⟩

/-- Claim C1, as stated, is false on the code: the dispatcher routes every
circular load through the chart approximation (line 205 of
`acrescimo_tensoes.py`; the closed-form call is commented out).  On-axis
with `R = 1`, `z = 0.5`, intensity `1` it returns the tabulated factor
`0.91`, while the Love closed form gives `1 - (1/5)^(3/2) ≈ 0.9106`. -/
theorem claim_C1_counterexample :
    calcular_acrescimo_tensoes
        ⟨"circular", ⟨0, 0, 0.5⟩, none, none, some ⟨1, 1, 0, 0⟩⟩ =
      ⟨some 0.91, some "Love (Circular - Ábaco)", none⟩ ∧
    calcular_acrescimo_love_circular_centro ⟨1, 1, 0, 0⟩ ⟨0, 0, 0.5⟩ =
      1 - (1 / 5 : ℝ) ^ (1.5 : ℝ) ∧
    (0.91 : ℝ) ≠ 1 - (1 / 5 : ℝ) ^ (1.5 : ℝ) := by
  refine ⟨?_, ?_, ?_⟩
  · simp only [calcular_acrescimo_tensoes]
    rw [if_neg (by norm_num [EPSILON])]
    rw [if_neg (by decide), if_neg (by decide), if_pos trivial]
    have habaco : calcular_acrescimo_love_circular_abaco ⟨1, 1, 0, 0⟩
        ⟨0, 0, 0.5⟩ = 0.91 := by
      simp only [calcular_acrescimo_love_circular_abaco]
      rw [if_neg (by norm_num [EPSILON]), if_neg (by norm_num [EPSILON])]
      rw [show Real.sqrt ((0 : ℝ) ^ 2 + 0 ^ 2) = 0 by
        rw [show (0 : ℝ) ^ 2 + 0 ^ 2 = 0 by norm_num]; exact Real.sqrt_zero]
      have hinf : zRInf ((0.5 : ℝ) / 1) = 0.5 :=
        zRInf_eval_B (by norm_num) (by norm_num)
      have hsup : zRSup ((0.5 : ℝ) / 1) = 0.5 := zRSup_eval_A (by norm_num)
      have hsint : curvaSintetica ((0.5 : ℝ) / 1) = curvaAbaco 0.5 := by
        simp only [curvaSintetica]
        rw [if_pos (by rw [hinf, hsup]), hinf]
      simp only [fatorAbaco]
      rw [hsint, curvaAbaco_eval_05]
      norm_num
    rw [habaco]
    norm_num [pyroundR, round_eq]
  · simp only [calcular_acrescimo_love_circular_centro]
    rw [if_neg (by norm_num [EPSILON]), if_neg (by norm_num [EPSILON])]
    rw [show (1 : ℝ) / (1 + ((1 : ℝ) / 0.5) ^ 2) = 1 / 5 by norm_num]
    rw [if_neg (by norm_num [EPSILON])]
    ring
  · intro h
    have h9 : ((1 / 5 : ℝ)) ^ (1.5 : ℝ) = 0.09 := by linarith
    have hsq : (((1 / 5 : ℝ)) ^ (1.5 : ℝ)) ^ (2 : ℕ) =
        ((1 / 5 : ℝ)) ^ ((3 : ℕ) : ℝ) := by
      rw [← Real.rpow_natCast (((1 / 5 : ℝ)) ^ (1.5 : ℝ)) 2,
        ← Real.rpow_mul (by norm_num)]
      norm_num
    rw [h9, Real.rpow_natCast] at hsq
    norm_num at hsq

/-- Claim C1 (amended): for `z > 1e-9` the dispatcher computes every
circular load via the Love chart approximation, never the closed form: for
a point at `(0, 0, z)` (on-axis when the load is centred at the origin; the
chart measures the radial offset from the origin and ignores
`centro_x`/`centro_y`) it returns `round4(intensity × factor(z/R, 0))` with
the method label `"Love (Circular - Ábaco)"`. -/
theorem claim_C1_amended (p R z cx cy : ℝ) (hz : EPSILON < z)
    (hR : EPSILON < R) :
    calcular_acrescimo_tensoes
        ⟨"circular", ⟨0, 0, z⟩, none, none, some ⟨R, p, cx, cy⟩⟩ =
      ⟨some (pyroundR 4 (p * fatorAbaco (z / R) 0)),
        some "Love (Circular - Ábaco)", none⟩ := by
  simp only [calcular_acrescimo_tensoes]
  rw [if_neg (not_le.mpr hz)]
  rw [if_neg (by decide), if_neg (by decide), if_pos trivial]
  simp only [calcular_acrescimo_love_circular_abaco]
  rw [if_neg (not_le.mpr hz), if_neg (not_le.mpr hR)]
  rw [show Real.sqrt ((0 : ℝ) ^ 2 + 0 ^ 2) = 0 by
    rw [show (0 : ℝ) ^ 2 + 0 ^ 2 = 0 by norm_num]; exact Real.sqrt_zero]
  rw [zero_div]

/-- Witness for claim C1 (amended) at `p = 1`, `R = 1`, `z = 0.5`. -/
theorem claim_C1_witness :
    calcular_acrescimo_tensoes
        ⟨"circular", ⟨0, 0, 0.5⟩, none, none, some ⟨1, 1, 0, 0⟩⟩ =
      ⟨some (pyroundR 4 (1 * fatorAbaco ((0.5 : ℝ) / 1) 0)),
        some "Love (Circular - Ábaco)", none⟩ :=
  claim_C1_amended 1 1 0.5 0 0 (by norm_num [EPSILON]) (by norm_num [EPSILON])

end EduSolo
